import Mathlib

/-!
Verification development for the yala-chatbot-frontend conversational relay.

This file gives a shallow embedding, in Lean 4, of the message-processing
core of the repository:

* the per-sender conversation `Session` record and the session store
  effects (`src/storage/session_store.py`),
* the backend gateway result types (`src/backend/client.py`),
* the conversation state machine `handle_incoming_message`
  (`src/conversation/handlers.py`), embedded as a pure function from the
  loaded session, the normalized input, and a backend oracle to an
  outgoing message plus the list of store effects and backend calls it
  performs,
* the inbound-edge machinery of `src/app.py`: the message de-dupe ledgers
  (`_meta_seen` and `RedisDedupe.seen`), the webhook signature check
  (`_verify_meta_signature`), the dispatch loop of `meta_webhook`, and the
  in-flight permit discipline of `_process_meta_message_task`.

Python conventions are modelled explicitly: `Optional[str]` becomes
`Option String`, Python truthiness of optional strings becomes
`optStrTruthy`, `a or b` becomes `pyOr`, and a mutation of the session
object followed by `store.upsert` becomes a `StoreEffect.upsert` carrying
the updated record.  Timestamps are `Nat`; `Session.touch` is applied by
the store layer (`applyEffect`), so the state machine itself never reads
the clock, exactly as in the source.
-/

/-- Conversation session record, mirroring the `Session` dataclass in
`src/storage/session_store.py`. -/
structure Session where
  state : String
  phoneNumber : Option String := none
  eventCode : Option String := none
  eventId : Option String := none
  eventName : Option String := none
  eventLocation : Option String := none
  eventLocationUrl : Option String := none
  guestName : Option String := none
  guestId : Option String := none
  backendToken : Option String := none
  funeralUniqueCodes : Option (List String) := none
  updatedAt : Nat := 0
deriving DecidableEq

/-- The `ConversationState` enum values of `src/conversation/state.py`. -/
def waitEventCode : String := "wait_event_code"

/-- Enum value `WAIT_NAME` of `ConversationState`. -/
def waitName : String := "wait_name"

/-- Enum value `MENU` of `ConversationState`. -/
def menuState : String := "menu"

/-- Enum value `WAIT_CONDOLENCE` of `ConversationState`. -/
def waitCondolence : String := "wait_condolence"

/-- Enum value `WAIT_DONATION_AMOUNT` of `ConversationState` (declared but
never entered by any transition). -/
def waitDonationAmount : String := "wait_donation_amount"

/-- Python truthiness of a `str` value: the empty string is falsy. -/
def strTruthy (s : String) : Bool := !(s = "")

/-- Python truthiness of an `Optional[str]` value: `None` and `""` are falsy. -/
def optStrTruthy : Option String → Bool
  | none => false
  | some s => strTruthy s

/-- Python `a or b` for `a : Optional[str]`, `b : str`. -/
def pyOr (a : Option String) (b : String) : String :=
  match a with
  | some s => if s = "" then b else s
  | none => b

/-- Python `a or b` for two `Optional[str]` values (used by the location
branch: `loc.location.name or session.event_location`). -/
def pyOrOpt (a b : Option String) : Option String :=
  if optStrTruthy a then a else b

/-- Rendering of an `Optional[str]` inside an f-string: `None` renders as
the string `"None"`. -/
def pyStr : Option String → String
  | none => "None"
  | some s => s

/-- Characters stripped from both ends, the char-list core of Python
`str.strip()`. -/
def trimChars (l : List Char) : List Char :=
  ((l.dropWhile Char.isWhitespace).reverse.dropWhile Char.isWhitespace).reverse

/-- Python `str.strip()`. -/
def pyStrip (s : String) : String := String.mk (trimChars s.data)

/-- Python `str.lower()`. -/
def pyLower (s : String) : String := String.mk (s.data.map Char.toLower)

/-- Python `str.upper()`. -/
def pyUpper (s : String) : String := String.mk (s.data.map Char.toUpper)

/-- Python `startswith`. -/
def strStartsWith (s p : String) : Bool :=
  s.data.take p.data.length == p.data

/-- The first `n` characters dropped, as a string. -/
def strDropChars (s : String) (n : Nat) : String := String.mk (s.data.drop n)

/-- The `normalize_text` helper of `src/conversation/state.py`:
`(text or "").strip()`. -/
def normalizeText (text : String) : String := pyStrip text

/-- The alias table of `_normalize_choice` in
`src/conversation/handlers.py`. -/
def choiceAliases : List (String × String) :=
  [("0", "menu"), ("menu", "menu"), ("main menu", "menu"), ("home", "menu"),
   ("help", "help"), ("?", "help"),
   ("restart", "restart"), ("reset", "restart"), ("start over", "restart"),
   ("back", "back"),
   ("1", "brochure"), ("brochure", "brochure"), ("download", "brochure"),
   ("pdf", "brochure"), ("program", "brochure"),
   ("2", "donate"), ("donate", "donate"), ("donation", "donate"),
   ("give", "donate"), ("donate now", "donate"),
   ("3", "condolence"), ("condolence", "condolence"), ("message", "condolence"),
   ("send message", "condolence"),
   ("4", "location"), ("location", "location"), ("venue", "location"),
   ("address", "location"), ("where", "location"), ("map", "location")]

/-- The `_normalize_choice` helper: lower-cases the stripped text and maps
it through the alias table, defaulting to the text itself. -/
def normalizeChoice (text : String) : String :=
  let t := pyLower (normalizeText text)
  if t = "" then ""
  else ((choiceAliases.lookup t).getD t)

/-- The `_is_greeting` helper. -/
def isGreeting (text : String) : Bool :=
  let t := pyLower (normalizeText text)
  t = "hi" || t = "hello" || t = "hey" || t = "good morning" ||
  t = "good afternoon" || t = "good evening"

/-- The `_normalize_phone` helper: strips, removes a (case-insensitive)
`whatsapp:` prefix by splitting at the first colon, strips again, drops a
leading `+`, and keeps only the digits. -/
def normalizePhone (senderKey : String) : String :=
  let raw := pyStrip senderKey
  let raw := pyStrip (if strStartsWith (pyLower raw) "whatsapp:" then strDropChars raw 9 else raw)
  let raw := if strStartsWith raw "+" then strDropChars raw 1 else raw
  String.mk (raw.data.filter Char.isDigit)

/-- The `_normalize_event_code` helper: `(code or "").strip().upper()`. -/
def normalizeEventCode (code : String) : String := pyUpper (pyStrip code)

/-- Substring containment, modelling Python `needle in hay`: the needle's
character list is an infix of the hay's character list. -/
def strContains (hay needle : String) : Bool :=
  hay.data.tails.any (fun t => t.take needle.data.length == needle.data)

/-- The `_looks_like_auth_error` classification of
`src/conversation/handlers.py` (Python `and` binds tighter than `or`, so
the final clause is `("token" in e and "expire" in e)`). -/
def looksLikeAuthError : Option String → Bool
  | none => false
  | some err =>
    if err = "" then false
    else
      let e := pyLower err
      strContains e "http 401" || strContains e "401" ||
      strContains e "unauthorized" || strContains e "forbidden" ||
      strContains e "jwt" || (strContains e "token" && strContains e "expire")

/-- Backend `Event` record (`src/backend/client.py`). -/
structure Event where
  eventId : String
  name : String
  location : Option String := none
  locationUrl : Option String := none
deriving DecidableEq

/-- Backend `EventLookupResult` (`status` is one of
`found | not_found | closed | error`). -/
structure EventLookupResult where
  status : String
  event : Option Event := none
  error : Option String := none
deriving DecidableEq

/-- Backend `Brochure` record. -/
structure Brochure where
  mediaUrl : String
deriving DecidableEq

/-- Backend `BrochureResult` (`ready | missing | error`). -/
structure BrochureResult where
  status : String
  brochure : Option Brochure := none
  error : Option String := none
deriving DecidableEq

/-- Backend `DonationIntent` record.  Note: its only fields are
`checkout_url` and `reference`; the handler's donate branch reads a
non-existent `instructions` attribute (see `handleMenu`). -/
structure DonationIntent where
  checkoutUrl : String
  reference : Option String := none
deriving DecidableEq

/-- Backend `DonationIntentResult` (`ready | unavailable | error`). -/
structure DonationIntentResult where
  status : String
  intent : Option DonationIntent := none
  error : Option String := none
deriving DecidableEq

/-- Backend `SubmitResult` for condolences (`ok | unavailable | error`). -/
structure SubmitResult where
  status : String
  id : Option String := none
  error : Option String := none
deriving DecidableEq

/-- Backend `FuneralLocation` record. -/
structure FuneralLocation where
  day : Option String := none
  time : Option String := none
  name : Option String := none
  link : Option String := none
deriving DecidableEq

/-- Backend `FuneralLocationResult` (`ready | missing | error`). -/
structure FuneralLocationResult where
  status : String
  location : Option FuneralLocation := none
  error : Option String := none
deriving DecidableEq

/-- Backend `Guest` record. -/
structure Guest where
  guestId : String
  fullName : String
  phoneNumber : String
  funeralUniqueCodes : List String
deriving DecidableEq

/-- Backend `GuestAuthResult` (`found | created | not_found | error`). -/
structure GuestAuthResult where
  status : String
  guest : Option Guest := none
  token : Option String := none
  error : Option String := none
deriving DecidableEq

/-- The backend gateway (`BackendClient` protocol of
`src/backend/client.py`), embedded as an oracle of pure functions: the
deployed client (`HttpBackendClient`) returns one result per request, and
the state machine only observes those results. -/
structure Backend where
  getEventByCode : String → Option String → EventLookupResult
  getBrochure : String → Option String → BrochureResult
  getFuneralLocation : String → Option String → FuneralLocationResult
  submitCondolence : String → String → String → Option String → SubmitResult
  createDonationIntent : String → String → Float → Option String → DonationIntentResult
  checkGuestRegistration : String → GuestAuthResult
  registerGuest : String → String → GuestAuthResult

/-- One observable backend request made during a transition.  There is no
donation constructor: `handle_incoming_message` passes only two arguments
to `create_donation_intent`, whose signature requires three, so in Python
the call raises `TypeError` before any request is issued. -/
inductive BackendCall where
  | getEventByCode (code : String) (token : Option String)
  | getBrochure (eventId : String) (token : Option String)
  | getFuneralLocation (eventId : String) (token : Option String)
  | submitCondolence (eventId guestId message : String) (token : Option String)
  | checkGuestRegistration (phone : String)
  | registerGuest (fullName phone : String)
deriving DecidableEq

/-- One session-store operation performed during a transition
(`store.upsert` / `store.clear` in the source). -/
inductive StoreEffect where
  | upsert (key : String) (session : Session)
  | clear (key : String)
deriving DecidableEq

/-- The `OutgoingMessage` descriptor of `src/conversation/handlers.py`. -/
structure OutgoingMessage where
  text : String
  mediaUrl : Option String := none
  interactiveMenu : Bool := false
  guestName : Option String := none
deriving DecidableEq

/-- Result of running a transition: either an outgoing message, or an
uncaught Python exception (named by its class). -/
inductive HandlerOutcome where
  | ok (message : OutgoingMessage)
  | exn (exnClass : String)
deriving DecidableEq

/-- Everything a single `handle_incoming_message` transition does: its
outcome, the session-store effects in order, and the backend calls in
order. -/
structure HandlerResult where
  outcome : HandlerOutcome
  effects : List StoreEffect
  calls : List BackendCall
deriving DecidableEq

/-- The subset of `Settings` (`src/config.py`) read by the state
machine. -/
structure Settings where
  defaultEventName : String
  defaultEventLocation : Option String
  defaultEventLocationUrl : Option String
deriving DecidableEq

/-- The `_event_display_name` helper. -/
def eventDisplayName (settings : Settings) (uniqueCode : String) : String :=
  let displayName := settings.defaultEventName
  let code := normalizeEventCode uniqueCode
  if strTruthy code && !(strContains (pyLower displayName) (pyLower code)) then
    displayName ++ " (" ++ code ++ ")"
  else displayName

/-- The `_guest_has_event_code` helper. -/
def guestHasEventCode (session : Session) (uniqueCode : String) : Bool :=
  let code := normalizeEventCode uniqueCode
  if code = "" then false
  else (session.funeralUniqueCodes.getD []).any
    (fun c => normalizeEventCode c == code)

/-- The `WELCOME_TEXT` constant. -/
def welcomeText : String :=
  "Hello 👋\nWelcome to Yala.\nPlease enter the *Event Code* on your card to continue."

/-- The `_menu_text` helper. -/
def menuText (guestName : String) : String :=
  "Thank you, " ++ guestName ++ ".\n" ++
  "How can we help you today?\n\n" ++
  "1. 📄 Download event brochure\n" ++
  "2. 💝 Give / Donate\n" ++
  "3. 🕊️ Send condolence / message\n" ++
  "4. 📍 Location"

/-- Outgoing welcome message value. -/
def welcomeMsg : OutgoingMessage := { text := welcomeText }

/-- Result of `_refresh_guest_auth_if_possible`: whether the refresh
succeeded, the (possibly updated) session, and the store/backend activity
it performed. -/
structure RefreshResult where
  refreshed : Bool
  session : Session
  effects : List StoreEffect
  calls : List BackendCall

/-- The `_refresh_guest_auth_if_possible` helper of
`src/conversation/handlers.py`: re-fetches guest registration by phone
and, on success, overwrites the cached guest identity/token and upserts
the session. -/
def refreshGuestAuthIfPossible (backend : Backend) (senderKey : String)
    (session : Session) (phoneNumber : String) : RefreshResult :=
  let phone := pyOr session.phoneNumber phoneNumber
  if phone = "" then
    { refreshed := false, session := session, effects := [], calls := [] }
  else
    let guest := backend.checkGuestRegistration phone
    match guest.guest with
    | some g =>
      if guest.status == "found" then
        let s := { session with
          guestId := some g.guestId
          guestName := some g.fullName
          backendToken := guest.token
          funeralUniqueCodes := some g.funeralUniqueCodes }
        { refreshed := true
          session := s
          effects := [StoreEffect.upsert senderKey s]
          calls := [BackendCall.checkGuestRegistration phone] }
      else
        { refreshed := false
          session := session
          effects := []
          calls := [BackendCall.checkGuestRegistration phone] }
    | none =>
      { refreshed := false
        session := session
        effects := []
        calls := [BackendCall.checkGuestRegistration phone] }

/-- Result of one backend call guarded by the auth-error retry pattern. -/
structure RetryOut (R : Type) where
  result : R
  session : Session
  effects : List StoreEffect
  calls : List BackendCall

/-- The auth-error retry pattern that `handle_incoming_message` inlines at
each of its backend call sites: perform the call; if the result's status
is `"error"` and the error text looks like an authorization failure,
attempt one guest-auth refresh and, only if the refresh succeeded, retry
the call once with the refreshed session.  `call` performs the request
from the current session (the retry re-reads the session fields, exactly
as the source re-evaluates `session.backend_token` etc. after the
refresh); `tag` records the same request as a `BackendCall`. -/
def withAuthRetry {R : Type} (status : R → String) (errOf : R → Option String)
    (call : Session → R) (tag : Session → BackendCall)
    (backend : Backend) (senderKey phoneNumber : String) (session : Session) :
    RetryOut R :=
  let result := call session
  if (status result == "error") && looksLikeAuthError (errOf result) then
    let r := refreshGuestAuthIfPossible backend senderKey session phoneNumber
    if r.refreshed then
      { result := call r.session
        session := r.session
        effects := r.effects
        calls := [tag session] ++ r.calls ++ [tag r.session] }
    else
      { result := result
        session := r.session
        effects := r.effects
        calls := [tag session] ++ r.calls }
  else
    { result := result, session := session, effects := [], calls := [tag session] }

/-- The not-found apology of the `AwaitingEventCode` branch. -/
def eventNotFoundText : String :=
  "Sorry, that event code was not found.\nPlease check the card and try again."

/-- The name prompt shown after a verified or adopted event. -/
def eventThenAskNameText (eventName : Option String) : String :=
  "Thank you.\nThis is the funeral/event of *" ++ pyStr eventName ++
  "*.\n\nPlease enter your *name* to continue."

/-- The cached-code adoption of the `wait_event_code` branch: the guest
profile already lists this event code, so re-verification is skipped and
the event identity is adopted from the normalized code and the configured
defaults. -/
def waitEventCodeAdoptCached (settings : Settings) (senderKey text : String)
    (session : Session) : HandlerResult :=
  if optStrTruthy session.guestName then
    { outcome := .ok { text := menuText (pyStr session.guestName), interactiveMenu := true,
                       guestName := session.guestName }
      effects := [.upsert senderKey { session with
        eventCode := some (normalizeEventCode text)
        eventId := some (normalizeEventCode text)
        eventName := some (eventDisplayName settings (normalizeEventCode text))
        eventLocation := settings.defaultEventLocation
        eventLocationUrl := settings.defaultEventLocationUrl
        state := menuState }]
      calls := [] }
  else
    { outcome := .ok { text := (eventThenAskNameText
        (some (eventDisplayName settings (normalizeEventCode text)))) }
      effects := [.upsert senderKey { session with
        eventCode := some (normalizeEventCode text)
        eventId := some (normalizeEventCode text)
        eventName := some (eventDisplayName settings (normalizeEventCode text))
        eventLocation := settings.defaultEventLocation
        eventLocationUrl := settings.defaultEventLocationUrl
        state := waitName }]
      calls := [] }

/-- The session update of a successful event verification: store the
normalized code and the event identity returned by the backend, and cache
the code into the guest\x27s known codes when absent. -/
def adoptVerifiedEvent (text : String) (session : Session) (ev : Event) : Session :=
  if strTruthy (normalizeEventCode text) &&
      !(session.funeralUniqueCodes.getD []).any
        (fun x => normalizeEventCode x == normalizeEventCode text) then
    { session with
      eventCode := some (normalizeEventCode text)
      eventId := some ev.eventId
      eventName := some ev.name
      eventLocation := ev.location
      eventLocationUrl := ev.locationUrl
      funeralUniqueCodes := some ((session.funeralUniqueCodes.getD []) ++ [normalizeEventCode text]) }
  else
    { session with
      eventCode := some (normalizeEventCode text)
      eventId := some ev.eventId
      eventName := some ev.name
      eventLocation := ev.location
      eventLocationUrl := ev.locationUrl }

/-- The verification tail of the `wait_event_code` branch: verify the code
(with the one-refresh-one-retry guard), then either adopt the found event
and move to `menu`/`wait_name`, or apologize and stay. -/
def waitEventCodeVerify (backend : Backend) (_settings : Settings)
    (senderKey phoneNumber text : String) (session : Session) : HandlerResult :=
  (fun r : RetryOut EventLookupResult =>
    if (r.result.status == "found") && r.result.event.isSome then
      (fun s : Session =>
        if optStrTruthy s.guestName then
          { outcome := .ok { text := menuText (pyStr s.guestName), interactiveMenu := true,
                             guestName := s.guestName }
            effects := r.effects ++ [.upsert senderKey { s with state := menuState }]
            calls := r.calls }
        else
          { outcome := .ok { text := eventThenAskNameText s.eventName }
            effects := r.effects ++ [.upsert senderKey { s with state := waitName }]
            calls := r.calls })
        (adoptVerifiedEvent text r.session (r.result.event.getD { eventId := "", name := "" }))
    else
      { outcome := .ok { text := eventNotFoundText }
        effects := r.effects
        calls := r.calls })
    (withAuthRetry (fun x => x.status) (fun x => x.error)
      (fun s => backend.getEventByCode text s.backendToken)
      (fun s => .getEventByCode text s.backendToken)
      backend senderKey phoneNumber session)

/-- The `wait_event_code` branch of `handle_incoming_message`
(`src/conversation/handlers.py`). -/
def handleWaitEventCode (backend : Backend) (settings : Settings)
    (senderKey phoneNumber text : String) (session : Session) : HandlerResult :=
  if text = "" then
    { outcome := .ok welcomeMsg, effects := [], calls := [] }
  else if isGreeting text then
    { outcome := .ok welcomeMsg, effects := [], calls := [] }
  else if !optStrTruthy session.backendToken then
    { outcome := .ok { text := "Thank you. Please enter your *name* to continue." }
      effects := [.upsert senderKey { session with eventCode := some text, state := waitName }]
      calls := [] }
  else if guestHasEventCode session text then
    waitEventCodeAdoptCached settings senderKey text session
  else
    waitEventCodeVerify backend settings senderKey phoneNumber text session

/-- The failure tail of the `wait_name` branch: clear the event fields
(all-or-nothing), return to `wait_event_code`, keep the guest details. -/
def waitNameClearFailure (senderKey : String) (session : Session)
    (effects : List StoreEffect) (calls : List BackendCall) : HandlerResult :=
  let s := { session with
    eventCode := none
    eventId := none
    eventName := none
    eventLocation := none
    eventLocationUrl := none
    state := waitEventCode }
  { outcome := .ok { text := "Sorry, that event code was not found.\nPlease enter the *Event Code* on your card to continue." }
    effects := effects ++ [.upsert senderKey s]
    calls := calls }

/-- The best-effort guest registration step at the top of the `wait_name`
branch: registers the guest by name and phone and, when the result is
`created`/`found` with a guest, overwrites the cached guest id, token and
known event codes (but not the just-entered name). -/
def waitNameRegister (backend : Backend) (text phone : String) (session : Session) :
    Session × List BackendCall :=
  if phone = "" then (session, [])
  else
    let reg := backend.registerGuest text phone
    match reg.guest with
    | some g =>
      if reg.status == "created" || reg.status == "found" then
        ({ session with
            guestId := some g.guestId
            backendToken := reg.token
            funeralUniqueCodes := some g.funeralUniqueCodes },
         [BackendCall.registerGuest text phone])
      else (session, [BackendCall.registerGuest text phone])
    | none => (session, [BackendCall.registerGuest text phone])

/-- The session update of a successful verification in the `wait_name`
branch: store the event identity from the backend and cache the pending
code into the known codes when absent (the pending `event_code` itself is
left as entered). -/
def waitNameAdoptVerified (ev : Event) (session : Session) : Session :=
  if strTruthy (normalizeEventCode (pyOr session.eventCode "")) &&
      !(session.funeralUniqueCodes.getD []).any
        (fun x => normalizeEventCode x == normalizeEventCode (pyOr session.eventCode "")) then
    { session with
      eventId := some ev.eventId
      eventName := some ev.name
      eventLocation := ev.location
      eventLocationUrl := ev.locationUrl
      funeralUniqueCodes := some ((session.funeralUniqueCodes.getD []) ++
        [normalizeEventCode (pyOr session.eventCode "")]) }
  else
    { session with
      eventId := some ev.eventId
      eventName := some ev.name
      eventLocation := ev.location
      eventLocationUrl := ev.locationUrl }

/-- The continuation of the `wait_name` branch after the registration
step, acting on the (possibly updated) session and carrying the
registration call trace: re-collect the code when none is pending, adopt a
cached code without verifying, verify otherwise (one refresh, one retry),
and on failure clear the event fields and return to `wait_event_code`. -/
def handleWaitNameVerified (backend : Backend) (settings : Settings)
    (senderKey phoneNumber _text : String) (session2 : Session)
    (regCalls : List BackendCall) : HandlerResult :=
  if !optStrTruthy session2.eventCode then
    { outcome := .ok welcomeMsg
      effects := [.upsert senderKey { session2 with state := waitEventCode }]
      calls := regCalls }
  else if optStrTruthy session2.backendToken &&
          guestHasEventCode session2 (pyOr session2.eventCode "") then
    { outcome := .ok { text := menuText (pyStr session2.guestName), interactiveMenu := true,
                       guestName := session2.guestName }
      effects := [.upsert senderKey { session2 with
        eventId := some (normalizeEventCode (pyOr session2.eventCode ""))
        eventName := some (eventDisplayName settings (normalizeEventCode (pyOr session2.eventCode "")))
        eventLocation := settings.defaultEventLocation
        eventLocationUrl := settings.defaultEventLocationUrl
        state := menuState }]
      calls := regCalls }
  else if optStrTruthy session2.backendToken then
    (fun r : RetryOut EventLookupResult =>
      if (r.result.status == "found") && r.result.event.isSome then
        (fun s : Session =>
          { outcome := .ok { text := menuText (pyStr s.guestName), interactiveMenu := true,
                             guestName := s.guestName }
            effects := r.effects ++ [.upsert senderKey s]
            calls := regCalls ++ r.calls })
          { waitNameAdoptVerified (r.result.event.getD { eventId := "", name := "" }) r.session
              with state := menuState }
      else
        waitNameClearFailure senderKey r.session r.effects (regCalls ++ r.calls))
      (withAuthRetry (fun x => x.status) (fun x => x.error)
        (fun s => backend.getEventByCode (pyOr s.eventCode "") s.backendToken)
        (fun s => .getEventByCode (pyOr s.eventCode "") s.backendToken)
        backend senderKey phoneNumber session2)
  else
    waitNameClearFailure senderKey session2 [] regCalls

/-- The `wait_name` branch of `handle_incoming_message`: an empty input
re-prompts; otherwise the entered name is stored, the guest is registered
best-effort, and the pending event code is adopted or verified. -/
def handleWaitName (backend : Backend) (settings : Settings)
    (senderKey phoneNumber text : String) (session : Session) : HandlerResult :=
  if text = "" then
    { outcome := .ok { text := "Please enter your name to continue (e.g., Ama / Kofi)." }
      effects := []
      calls := [] }
  else
    handleWaitNameVerified backend settings senderKey phoneNumber text
      (waitNameRegister backend text (pyOr session.phoneNumber phoneNumber)
        { session with guestName := some text }).1
      (waitNameRegister backend text (pyOr session.phoneNumber phoneNumber)
        { session with guestName := some text }).2

/-- The missing-event-context reply used by the brochure, donate and
location branches. -/
def missingEventContextText : String :=
  "Missing event context. Please type \x27restart\x27."

/-- The brochure arm of the `menu` branch. -/
def menuBrochure (backend : Backend) (senderKey phoneNumber : String)
    (session : Session) : HandlerResult :=
  if !optStrTruthy session.eventId then
    { outcome := .ok { text := missingEventContextText }, effects := [], calls := [] }
  else
    (fun r : RetryOut BrochureResult =>
      if (r.result.status == "ready") && r.result.brochure.isSome then
        { outcome := .ok { text := ("Here is the event brochure.\nYou may download it to your phone.\n\n" ++
                             menuText (pyStr r.session.guestName))
                           mediaUrl := some (r.result.brochure.getD { mediaUrl := "" }).mediaUrl }
          effects := r.effects ++ [.upsert senderKey r.session]
          calls := r.calls }
      else
        { outcome := .ok { text := ("Sorry, " ++
              pyOr r.result.error "Brochure is not available right now." ++ "\n\n" ++
              menuText (pyStr r.session.guestName)) }
          effects := r.effects
          calls := r.calls })
      (withAuthRetry (fun x => x.status) (fun x => x.error)
        (fun s => backend.getBrochure (pyStr s.eventId) s.backendToken)
        (fun s => .getBrochure (pyStr s.eventId) s.backendToken)
        backend senderKey phoneNumber session)

/-- The donate arm of the `menu` branch — the arm with the repository
bug: `handlers.py` line 446 calls
`backend.create_donation_intent(session.event_id, session.guest_name)`
with two arguments while the client signature (`client.py` lines 100-106,
`http_client.py` lines 381-387) also requires a positional `amount`, so
Python raises `TypeError` at the call site, before any backend request is
made.  (Had the call succeeded, the branch would next read
`intent.intent.instructions`, a field `DonationIntent` does not have.) -/
def menuDonate (session : Session) : HandlerResult :=
  if !optStrTruthy session.eventId then
    { outcome := .ok { text := missingEventContextText }, effects := [], calls := [] }
  else
    { outcome := .exn "TypeError", effects := [], calls := [] }

/-- The location arm of the `menu` branch. -/
def menuLocation (backend : Backend) (senderKey phoneNumber : String)
    (session : Session) : HandlerResult :=
  if !optStrTruthy session.eventId then
    { outcome := .ok { text := missingEventContextText }, effects := [], calls := [] }
  else
    (fun r : RetryOut FuneralLocationResult =>
      if (r.result.status == "ready") && r.result.location.isSome then
        (fun l : FuneralLocation =>
          { outcome := .ok { text := (String.intercalate "\n"
              ((if optStrTruthy l.name then ["📍 " ++ pyStr l.name] else []) ++
               (if optStrTruthy l.day then ["Day: " ++ pyStr l.day] else []) ++
               (if optStrTruthy l.time then ["Time: " ++ pyStr l.time] else []) ++
               (if optStrTruthy l.link then ["Map: " ++ pyStr l.link] else []) ++
               ["", menuText (pyStr r.session.guestName)])) }
            effects := r.effects ++ [.upsert senderKey { r.session with
              eventLocation := pyOrOpt l.name r.session.eventLocation
              eventLocationUrl := pyOrOpt l.link r.session.eventLocationUrl }]
            calls := r.calls })
          (r.result.location.getD {})
      else
        { outcome := .ok { text := (String.intercalate "\n"
            ["Sorry, " ++ pyOr r.result.error "Location details are not available yet.", "",
             menuText (pyStr r.session.guestName)]) }
          effects := r.effects
          calls := r.calls })
      (withAuthRetry (fun x => x.status) (fun x => x.error)
        (fun s => backend.getFuneralLocation (pyStr s.eventId) s.backendToken)
        (fun s => .getFuneralLocation (pyStr s.eventId) s.backendToken)
        backend senderKey phoneNumber session)

/-- The `menu` branch of `handle_incoming_message`. -/
def handleMenu (backend : Backend) (_settings : Settings)
    (senderKey phoneNumber _text choice : String) (session : Session) : HandlerResult :=
  if !optStrTruthy session.guestName then
    { outcome := .ok { text := "Please enter your name to continue." }
      effects := [.upsert senderKey { session with state := waitName }]
      calls := [] }
  else if choice = "menu" || choice = "" then
    { outcome := .ok { text := menuText (pyStr session.guestName), interactiveMenu := true,
                       guestName := session.guestName }
      effects := []
      calls := [] }
  else if choice = "brochure" then
    menuBrochure backend senderKey phoneNumber session
  else if choice = "donate" then
    menuDonate session
  else if choice = "condolence" then
    { outcome := .ok { text := "Please type the message you would like to send to the family.\n(Reply *back* to return to the menu.)" }
      effects := [.upsert senderKey { session with state := waitCondolence }]
      calls := [] }
  else if choice = "location" then
    menuLocation backend senderKey phoneNumber session
  else
    { outcome := .ok { text := ("Please reply with *1*, *2*, *3*, or *4* (or type *brochure*, *donate*, *message*, *location*).\n\n" ++
                         menuText (pyStr session.guestName)) }
      effects := []
      calls := [] }

/-- The condolence-submission tail of the `wait_condolence` branch. -/
def condolenceSubmit (backend : Backend) (senderKey phoneNumber text : String)
    (session : Session) : HandlerResult :=
  (fun r : RetryOut SubmitResult =>
    if r.result.status == "ok" then
      { outcome := .ok { text := ("Thank you.\nYour message has been sent to the family.\n\n" ++
                           menuText (pyStr r.session.guestName)) }
        effects := r.effects ++ [.upsert senderKey { r.session with state := menuState }]
        calls := r.calls }
    else
      { outcome := .ok { text := ("Sorry, we couldn’t send your message right now.\nPlease try again later.\n\n" ++
                           menuText (pyStr r.session.guestName)) }
        effects := r.effects ++ [.upsert senderKey { r.session with state := menuState }]
        calls := r.calls })
    (withAuthRetry (fun x => x.status) (fun x => x.error)
      (fun s => backend.submitCondolence (pyStr s.eventId) (pyStr s.guestId) text s.backendToken)
      (fun s => .submitCondolence (pyStr s.eventId) (pyStr s.guestId) text s.backendToken)
      backend senderKey phoneNumber session)

/-- The `wait_condolence` branch of `handle_incoming_message`. -/
def handleWaitCondolence (backend : Backend)
    (senderKey phoneNumber text choice : String) (session : Session) : HandlerResult :=
  if !optStrTruthy session.guestName || !optStrTruthy session.eventId then
    { outcome := .ok { text := ("Missing context. Returning to main menu.\n\n" ++
                         menuText (pyOr session.guestName "")) }
      effects := [.upsert senderKey { session with state := menuState }]
      calls := [] }
  else if !optStrTruthy session.guestId then
    { outcome := .ok { text := ("We couldn’t identify your guest profile.\nPlease type *restart* and try again.\n\n" ++
                         menuText (pyStr session.guestName)) }
      effects := [.upsert senderKey { session with state := menuState }]
      calls := [] }
  else if choice = "back" || choice = "menu" then
    { outcome := .ok { text := menuText (pyStr session.guestName) }
      effects := [.upsert senderKey { session with state := menuState }]
      calls := [] }
  else if text = "" then
    { outcome := .ok { text := "Please type the message you would like to send to the family." }
      effects := []
      calls := [] }
  else
    condolenceSubmit backend senderKey phoneNumber text session

/-- Construction of a fresh session, with the guest-profile prefetch by
phone number when one is derivable (used both for a first-time sender and
for the `restart` command). -/
def newSessionWithPrefetch (backend : Backend) (phoneNumber : String) :
    Session × List BackendCall :=
  let session : Session :=
    { state := waitEventCode
      phoneNumber := if phoneNumber = "" then none else some phoneNumber }
  if phoneNumber = "" then (session, [])
  else
    let guest := backend.checkGuestRegistration phoneNumber
    match guest.guest with
    | some g =>
      if guest.status == "found" then
        ({ session with
            guestId := some g.guestId
            guestName := some g.fullName
            backendToken := guest.token
            funeralUniqueCodes := some g.funeralUniqueCodes },
         [BackendCall.checkGuestRegistration phoneNumber])
      else (session, [BackendCall.checkGuestRegistration phoneNumber])
    | none => (session, [BackendCall.checkGuestRegistration phoneNumber])

/-- The help text of the global `help` command. -/
def helpBodyText : String :=
  "You can reply with:\n- *DEMO* (or your event code) to start\n- *1* for brochure\n- *2* to donate\n- *3* to send a message\n- *0* to show the menu\n- *restart* to start over"

/-- The `handle_incoming_message` state machine of
`src/conversation/handlers.py`, as a pure transition: from the sender key,
the raw incoming text, the stored session (the single `store.get` the
handler performs), a backend oracle and the settings, it produces the
outcome plus the ordered store effects and backend calls of the
transition. -/
def handleIncomingMessage (senderKey incomingText : String) (stored : Option Session)
    (backend : Backend) (settings : Settings) : HandlerResult :=
  let text := normalizeText incomingText
  let choice := normalizeChoice text
  let phoneNumber := normalizePhone senderKey
  match stored with
  | none =>
    let p := newSessionWithPrefetch backend phoneNumber
    { outcome := .ok welcomeMsg, effects := [.upsert senderKey p.1], calls := p.2 }
  | some session =>
    if choice = "restart" then
      let p := newSessionWithPrefetch backend phoneNumber
      { outcome := .ok welcomeMsg
        effects := [.clear senderKey, .upsert senderKey p.1]
        calls := p.2 }
    else if choice = "help" then
      let t := if optStrTruthy session.guestName then
                 helpBodyText ++ "\n\n" ++ menuText (pyStr session.guestName)
               else helpBodyText
      { outcome := .ok { text := t }, effects := [], calls := [] }
    else if session.state = waitEventCode then
      handleWaitEventCode backend settings senderKey phoneNumber text session
    else if session.state = waitName then
      handleWaitName backend settings senderKey phoneNumber text session
    else if session.state = menuState then
      handleMenu backend settings senderKey phoneNumber text choice session
    else if session.state = waitCondolence then
      handleWaitCondolence backend senderKey phoneNumber text choice session
    else
      { outcome := .ok welcomeMsg, effects := [.clear senderKey], calls := [] }

/-- A session store as a map from sender key to stored session. -/
def SessionMap : Type := String → Option Session

/-- Application of one store effect at time `now`: `upsert` stamps
`updatedAt` (the `Session.touch` performed by `SessionStore.upsert` /
`RedisSessionStore.upsert`), `clear` removes the record. -/
def applyEffect (now : Nat) (st : SessionMap) : StoreEffect → SessionMap
  | .upsert k s => fun q => if q = k then some { s with updatedAt := now } else st q
  | .clear k => fun q => if q = k then none else st q

/-- Application of an ordered list of store effects at time `now`. -/
def applyEffects (now : Nat) (st : SessionMap) (es : List StoreEffect) : SessionMap :=
  es.foldl (applyEffect now) st

/-- One full transition against a store: load the sender's session, run
the state machine, apply its store effects at time `now`. -/
def runHandler (now : Nat) (senderKey incomingText : String) (st : SessionMap)
    (backend : Backend) (settings : Settings) : HandlerResult × SessionMap :=
  let r := handleIncomingMessage senderKey incomingText (st senderKey) backend settings
  (r, applyEffects now st r.effects)

/-- A de-dupe ledger state: message key to expiry timestamp.  For the
in-memory `_META_SEEN` dict this is the dict itself; for the Redis ledger
it is the set of `meta_seen:*` keys with their expiry times. -/
def DedupeState : Type := String → Option Nat

/-- The `_META_SEEN_TTL_SECONDS` constant of `src/app.py`. -/
def metaSeenTtlSeconds : Nat := 24 * 60 * 60

/-- The opportunistic expiry sweep the in-memory `_meta_seen` performs on
each call: entries with `exp <= now` are removed. -/
def metaSweep (st : DedupeState) (now : Nat) : DedupeState :=
  fun k => match st k with
    | some e => if e ≤ now then none else some e
    | none => none

/-- The in-memory branch of `_meta_seen` (`src/app.py` lines 135-155):
an empty ID is never seen and never recorded; otherwise sweep expired
entries, report a live entry as seen, and record a fresh ID with its
TTL. -/
def metaSeen (st : DedupeState) (now : Nat) (msgId : String) : Bool × DedupeState :=
  if msgId = "" then (false, st)
  else
    match metaSweep st now msgId with
    | some _ => (true, metaSweep st now)
    | none =>
      (false, fun k => if k = msgId then some (now + metaSeenTtlSeconds) else metaSweep st now k)

/-- `RedisDedupe.seen` (`src/storage/redis_session_store.py` lines
103-110): strips the ID, returns false (recording nothing) when the strip
leaves nothing, and otherwise issues `SET key value NX EX ttl` — the set
succeeds (returning false) exactly when no live entry exists, and a live
entry makes the call return true.  Redis expiry makes a key whose expiry
time has passed behave as absent. -/
def redisSeen (st : DedupeState) (now : Nat) (msgId : String) (ttlSeconds : Nat) :
    Bool × DedupeState :=
  if pyStrip msgId = "" then (false, st)
  else
    match st (pyStrip msgId) with
    | some e =>
      if now < e then (true, st)
      else (false, fun k => if k = pyStrip msgId then some (now + ttlSeconds) else st k)
    | none => (false, fun k => if k = pyStrip msgId then some (now + ttlSeconds) else st k)

/-- Results of a sequence of timed de-dupe calls, restricted to the calls
made with the given message ID (any number of calls for other IDs may be
interleaved, by any caller). -/
def seenResultsFor (step : DedupeState → Nat → String → Bool × DedupeState)
    (msgId : String) : DedupeState → List (Nat × String) → List Bool
  | _, [] => []
  | st, c :: rest =>
    if c.2 = msgId then
      (step st c.1 c.2).1 :: seenResultsFor step msgId (step st c.1 c.2).2 rest
    else seenResultsFor step msgId (step st c.1 c.2).2 rest

/-- The per-request dispatch state of the `meta_webhook` loop: the de-dupe
ledger, the remaining in-flight permits, and the submissions handed to the
worker pool. -/
structure DispatchSt where
  ded : DedupeState
  permits : Nat
  submitted : List (String × String)

/-- One iteration of the dispatch loop of `meta_webhook` (`src/app.py`
lines 470-481): `if msg_id and _meta_seen(msg_id): continue`, then a
non-blocking permit acquire (dropping the message when the pool is
exhausted), then submission to the worker pool. -/
def metaWebhookStep (now : Nat) (st : DispatchSt) (m : String × String × String) :
    DispatchSt :=
  let msgId := m.2.2
  if msgId = "" then
    if st.permits = 0 then st
    else { st with permits := st.permits - 1, submitted := st.submitted ++ [(m.1, m.2.1)] }
  else
    let r := metaSeen st.ded now msgId
    if r.1 then { st with ded := r.2 }
    else if st.permits = 0 then { st with ded := r.2 }
    else { ded := r.2, permits := st.permits - 1, submitted := st.submitted ++ [(m.1, m.2.1)] }

/-- The dispatch loop over all extracted `(from, text, message_id)`
tuples. -/
def metaWebhookLoop (now : Nat) (ded : DedupeState) (permits : Nat)
    (msgs : List (String × String × String)) : DispatchSt :=
  msgs.foldl (metaWebhookStep now) { ded := ded, permits := permits, submitted := [] }

/-- The webhook-verification configuration read from `Settings`
(`src/config.py`). -/
structure WebhookCfg where
  verifyMetaSignatures : Bool
  metaAppSecret : String

/-- The `_verify_meta_signature` check of `src/app.py` (lines 165-182),
with the HMAC-SHA256 hex digest abstracted as an oracle `hmacHex secret
rawBody` (the check's logic — enablement, the missing-secret guard, the
`sha256=` prefix, and the constant-time digest comparison, which for equal
lengths is plain equality — is what is embedded). -/
def verifyMetaSignature (hmacHex : String → String → String) (cfg : WebhookCfg)
    (header rawBody : String) : Bool :=
  if !cfg.verifyMetaSignatures then true
  else if cfg.metaAppSecret = "" then false
  else if !strStartsWith header "sha256=" then false
  else strDropChars header 7 == hmacHex cfg.metaAppSecret rawBody

/-- A webhook reply: the HTTP status and everything the request dispatched. -/
structure WebhookReply where
  status : Nat
  dispatch : DispatchSt

/-- The `meta_webhook` delivery endpoint (`src/app.py` lines 444-483):
verify the signature over the raw body (responding 403 with no further
processing on failure), parse the JSON payload (modelled as already
extracted to `(from, text, message_id)` tuples, `none` for a parse
failure answered with 400), and run the dispatch loop. -/
def metaWebhook (hmacHex : String → String → String) (cfg : WebhookCfg)
    (header rawBody : String) (payload : Option (List (String × String × String)))
    (now : Nat) (ded : DedupeState) (permits : Nat) : WebhookReply :=
  if !verifyMetaSignature hmacHex cfg header rawBody then
    { status := 403, dispatch := { ded := ded, permits := permits, submitted := [] } }
  else
    match payload with
    | none => { status := 400, dispatch := { ded := ded, permits := permits, submitted := [] } }
    | some msgs => { status := 200, dispatch := metaWebhookLoop now ded permits msgs }

/-- Outcome of `_handle_one_meta_message` as observed by the worker task:
either it returns, or it raises some exception. -/
inductive ProcOutcome where
  | ok
  | raises
deriving DecidableEq

/-- A `BoundedSemaphore.release` guarded by the `except ValueError: pass`
of `_process_meta_message_task`: the permit count increases by one unless
the pool is already full (in which case the `ValueError` is swallowed). -/
def semReleaseGuarded (maxPermits sem : Nat) : Nat :=
  if sem < maxPermits then sem + 1 else sem

/-- The worker task `_process_meta_message_task` (`src/app.py` lines
366-376), observed through the permit count: the message handler runs
under a bare `except` (so an unexpected fault is logged, not propagated),
and the `finally` block performs exactly one guarded release — in every
outcome. -/
def processMetaMessageTask (maxPermits : Nat) (o : ProcOutcome) (sem : Nat) : Nat :=
  match o with
  | .ok => semReleaseGuarded maxPermits sem
  | .raises => semReleaseGuarded maxPermits sem

/-- The release operations the `finally` block performs, per outcome
(`release` is attempted exactly once whether the handler returned or
raised). -/
def taskReleaseOps (o : ProcOutcome) : Nat :=
  match o with
  | .ok => 1
  | .raises => 1

/-- One admission through the webhook loop followed by the worker task:
a non-blocking acquire (dropping the message when no permit is free),
then the task runs to completion with outcome `o`. -/
def submitOne (maxPermits sem : Nat) (o : ProcOutcome) : Nat :=
  if sem = 0 then sem
  else processMetaMessageTask maxPermits o (sem - 1)

/-- A sequence of submissions, each running to completion. -/
def runSubmissions (maxPermits : Nat) (sem : Nat) (os : List ProcOutcome) : Nat :=
  os.foldl (fun s o => submitOne maxPermits s o) sem

/-- A backend whose calls all fail with a bare error and no payload (used
to instantiate theorems at concrete inputs; its shape is irrelevant to the
transitions below, which either make no call or ignore the result). -/
def stubBackend : Backend :=
  { getEventByCode := fun _ _ => { status := "error" }
    getBrochure := fun _ _ => { status := "error" }
    getFuneralLocation := fun _ _ => { status := "error" }
    submitCondolence := fun _ _ _ _ => { status := "error" }
    createDonationIntent := fun _ _ _ _ => { status := "error" }
    checkGuestRegistration := fun _ => { status := "error" }
    registerGuest := fun _ _ => { status := "error" } }

/-- The configuration defaults of `src/config.py` for the fields the state
machine reads (`DEFAULT_EVENT_NAME` falls back to a non-empty value). -/
def defaultSettings : Settings :=
  { defaultEventName := "Yala Event"
    defaultEventLocation := none
    defaultEventLocationUrl := none }

/-- A session record with `updatedAt` normalized away (claim C5 compares
persisted sessions up to this timestamp). -/
def Session.eraseTime (s : Session) : Session := { s with updatedAt := 0 }

lemma applyEffects_eraseTime (es : List StoreEffect) (t1 t2 : Nat)
    (st1 st2 : SessionMap)
    (h : ∀ k, (st1 k).map Session.eraseTime = (st2 k).map Session.eraseTime) :
    ∀ k, ((applyEffects t1 st1 es) k).map Session.eraseTime =
      ((applyEffects t2 st2 es) k).map Session.eraseTime := by
  induction es generalizing st1 st2 with
  | nil => exact h
  | cons e rest ih =>
    show ∀ k, ((applyEffects t1 (applyEffect t1 st1 e) rest) k).map Session.eraseTime =
      ((applyEffects t2 (applyEffect t2 st2 e) rest) k).map Session.eraseTime
    apply ih
    intro k
    cases e with
    | upsert key s =>
      by_cases hk : k = key
      · subst hk; simp [applyEffect, Session.eraseTime]
      · simp [applyEffect, hk]; exact h k
    | clear key =>
      by_cases hk : k = key
      · subst hk; simp [applyEffect]
      · simp [applyEffect, hk]; exact h k

/-- C5: `handle_incoming_message` is deterministic.  The transition is a
pure function of the loaded session, the sender key, the input text, the
backend's responses (the backend oracle is a function, so identical calls
get identical results) and the settings; the only clock influence is the
`updatedAt` stamp applied by the store on upsert.  Two runs from identical
stored session contents at different times produce the identical
`HandlerResult` — outcome (text, media URL, interactive-menu flag, guest
name), effects and calls — and stores identical up to `updatedAt`. -/
theorem handleIncomingMessage_deterministic (t1 t2 : Nat)
    (senderKey incomingText : String) (st : SessionMap)
    (backend : Backend) (settings : Settings) :
    (runHandler t1 senderKey incomingText st backend settings).1 =
      (runHandler t2 senderKey incomingText st backend settings).1 ∧
    ∀ k, ((runHandler t1 senderKey incomingText st backend settings).2 k).map Session.eraseTime =
      ((runHandler t2 senderKey incomingText st backend settings).2 k).map Session.eraseTime := by
  refine ⟨rfl, ?_⟩
  exact applyEffects_eraseTime _ t1 t2 st st (fun _ => rfl)

/-- C9: each admitted unit of work releases its in-flight permit exactly
once, in the guaranteed-cleanup (`finally`) path, whether the message
handler returned or raised: the task performs exactly one (guarded)
release per outcome, the permit count rises by exactly one per completed
task, and any sequence of submissions — drops, successes and faults alike
— returns the pool to its starting capacity. -/
theorem permit_released_exactly_once (maxPermits : Nat) :
    (∀ o : ProcOutcome, taskReleaseOps o = 1) ∧
    (∀ (o : ProcOutcome) (sem : Nat),
      processMetaMessageTask maxPermits o sem = semReleaseGuarded maxPermits sem) ∧
    (∀ (o : ProcOutcome) (sem : Nat), sem < maxPermits →
      processMetaMessageTask maxPermits o sem = sem + 1) ∧
    (∀ (os : List ProcOutcome) (sem : Nat), sem ≤ maxPermits →
      runSubmissions maxPermits sem os = sem) := by
  refine ⟨fun o => by cases o <;> rfl, fun o sem => by cases o <;> rfl, ?_, ?_⟩
  · intro o sem hlt
    cases o <;> simp [processMetaMessageTask, semReleaseGuarded, hlt]
  · intro os
    induction os with
    | nil => intro sem _; rfl
    | cons o rest ih =>
      intro sem hle
      show runSubmissions maxPermits (submitOne maxPermits sem o) rest = sem
      have hsub : submitOne maxPermits sem o = sem := by
        by_cases h0 : sem = 0
        · simp [submitOne, h0]
        · have h1 : sem - 1 < maxPermits := by omega
          cases o <;> simp [submitOne, h0, processMetaMessageTask, semReleaseGuarded, h1] <;> omega
      rw [hsub]
      exact ih sem hle

/-- Closed witness for C9 at concrete inputs. -/
theorem permit_released_exactly_once_witness :
    processMetaMessageTask 4 ProcOutcome.raises 3 = 4 ∧
    runSubmissions 4 4 [ProcOutcome.ok, ProcOutcome.raises, ProcOutcome.ok] = 4 :=
  ⟨(permit_released_exactly_once 4).2.2.1 ProcOutcome.raises 3 (by decide),
   (permit_released_exactly_once 4).2.2.2 [ProcOutcome.ok, ProcOutcome.raises, ProcOutcome.ok] 4 (by decide)⟩

/-- C10: an empty extracted message ID is never deduplicated.  The
dispatch loop consults the ledger only for a non-empty ID (`if msg_id and
_meta_seen(msg_id)`), `_meta_seen` returns false without recording for an
empty ID, `RedisDedupe.seen` does the same after stripping, and a message
with an empty ID is handed to the worker pool on every delivery on which a
permit is free, with the ledger left untouched. -/
theorem empty_message_id_never_deduplicated :
    (∀ (st : DedupeState) (now : Nat), metaSeen st now "" = (false, st)) ∧
    (∀ (st : DedupeState) (now ttl : Nat), redisSeen st now "" ttl = (false, st)) ∧
    (∀ (now : Nat) (ded : DedupeState) (permits : Nat)
       (subs : List (String × String)) (fromWa text : String),
      metaWebhookStep now { ded := ded, permits := permits + 1, submitted := subs }
          (fromWa, text, "") =
        { ded := ded, permits := permits, submitted := subs ++ [(fromWa, text)] }) := by
  refine ⟨fun st now => rfl, fun st now ttl => rfl, ?_⟩
  intro now ded permits subs fromWa text
  simp [metaWebhookStep]

/-- A sender sitting in the main menu with a verified event and a known
guest (concrete instance for the donate-branch claims). -/
def menuDemoSession : Session :=
  { state := menuState
    phoneNumber := some "15550001111"
    eventCode := some "E1"
    eventId := some "E1"
    eventName := some "Yala Event (E1)"
    guestName := some "Ama"
    guestId := some "G1"
    backendToken := some "T" }

set_option maxHeartbeats 2000000 in
/-- C7: evaluation of the donate transition at its failing input.  A
sender in `Menu` with a guest name and event context sends `"2"`
(normalized to `donate`); `handlers.py` line 446 then calls
`create_donation_intent(session.event_id, session.guest_name)`, two
arguments against a signature (`client.py` lines 100-106,
`http_client.py` lines 381-387) that also requires a positional `amount`,
so Python raises `TypeError` at the call site: no backend call is made, no
session is persisted, and no unavailable explanation or menu is ever
produced, contradicting the scenario the spec describes. -/
theorem donate_branch_raises_typeerror :
    handleIncomingMessage "15550001111" "2" (some menuDemoSession) stubBackend defaultSettings =
      { outcome := .exn "TypeError", effects := [], calls := [] } := by
  decide

lemma newSessionWithPrefetch_state (backend : Backend) (phone : String) :
    (newSessionWithPrefetch backend phone).1.state = waitEventCode := by
  unfold newSessionWithPrefetch
  by_cases h : phone = ""
  · simp [h]
  · simp only [if_neg h]
    split
    · split <;> rfl
    · rfl

lemma newSessionWithPrefetch_calls (backend : Backend) (phone : String) :
    (newSessionWithPrefetch backend phone).2 =
      if phone = "" then [] else [BackendCall.checkGuestRegistration phone] := by
  unfold newSessionWithPrefetch
  by_cases h : phone = ""
  · simp [h]
  · simp only [if_neg h]
    split
    · split <;> rfl
    · rfl

set_option maxHeartbeats 2000000 in
/-- C6 (amended): a first message from an unseen sender always yields the
welcome text and persists a fresh `AwaitingEventCode` session; the
transition makes no backend calls exactly when no phone number is
derivable from the sender key — otherwise it makes exactly one
`check_guest_registration` prefetch call (`handlers.py` lines 177-183). -/
theorem new_sender_welcome (senderKey : String) (backend : Backend) (settings : Settings) :
    (handleIncomingMessage senderKey "hi" none backend settings).outcome =
      HandlerOutcome.ok welcomeMsg ∧
    (∃ s, (handleIncomingMessage senderKey "hi" none backend settings).effects =
        [StoreEffect.upsert senderKey s] ∧ s.state = waitEventCode) ∧
    (handleIncomingMessage senderKey "hi" none backend settings).calls =
      (if normalizePhone senderKey = "" then []
       else [BackendCall.checkGuestRegistration (normalizePhone senderKey)]) := by
  refine ⟨rfl, ⟨(newSessionWithPrefetch backend (normalizePhone senderKey)).1, rfl, ?_⟩, ?_⟩
  · exact newSessionWithPrefetch_state backend (normalizePhone senderKey)
  · exact newSessionWithPrefetch_calls backend (normalizePhone senderKey)

set_option maxHeartbeats 2000000 in
/-- C6 counterexample: for a sender key that carries a phone number, the
first `"hi"` does make a backend call — the guest-registration prefetch —
refuting `no backend calls made`. -/
theorem new_sender_prefetch_call :
    (handleIncomingMessage "15550001111" "hi" none stubBackend defaultSettings).calls =
      [BackendCall.checkGuestRegistration "15550001111"] := by
  decide

lemma metaSweep_live (st : DedupeState) (now : Nat) (k : String) (e : Nat)
    (hlive : st k = some e) (hnow : now < e) : metaSweep st now k = some e := by
  unfold metaSweep
  rw [hlive]
  exact if_neg (by omega)

lemma metaSeen_live_preserved (st : DedupeState) (now : Nat) (i themId : String) (e : Nat)
    (hId : themId ≠ "") (hlive : st themId = some e) (hnow : now < e) :
    (metaSeen st now i).2 themId = some e ∧
    (i = themId → (metaSeen st now i).1 = true) := by
  have hsw : metaSweep st now themId = some e := metaSweep_live st now themId e hlive hnow
  unfold metaSeen
  by_cases hi : i = ""
  · rw [if_pos hi]
    exact ⟨hlive, fun h => absurd (h.symm.trans hi) hId⟩
  · rw [if_neg hi]
    by_cases hit : i = themId
    · subst hit
      rw [hsw]
      exact ⟨hsw, fun _ => rfl⟩
    · cases hmi : metaSweep st now i with
      | some v =>
        dsimp only
        exact ⟨hsw, fun h => absurd h hit⟩
      | none =>
        dsimp only
        refine ⟨?_, fun h => absurd h hit⟩
        show (if themId = i then some (now + metaSeenTtlSeconds) else metaSweep st now themId) = some e
        rw [if_neg (fun h => hit h.symm), hsw]

lemma metaSeen_seq_true (themId : String) (hId : themId ≠ "") (e : Nat) :
    ∀ (cs : List (Nat × String)) (st : DedupeState),
      st themId = some e → (∀ c ∈ cs, c.1 < e) →
      seenResultsFor metaSeen themId st cs =
        List.replicate (cs.countP fun c => decide (c.2 = themId)) true := by
  intro cs
  induction cs with
  | nil => intro st _ _; rfl
  | cons c rest ih =>
    intro st hlive htimes
    have hc := metaSeen_live_preserved st c.1 c.2 themId e hId hlive
      (htimes c (List.mem_cons_self c rest))
    have hrest : ∀ c2 ∈ rest, c2.1 < e :=
      fun c2 h2 => htimes c2 (List.mem_cons_of_mem c h2)
    by_cases hct : c.2 = themId
    · simp only [seenResultsFor, if_pos hct]
      rw [hc.2 hct, ih _ hc.1 hrest]
      simp [List.countP_cons, hct, List.replicate_succ]
    · simp only [seenResultsFor, if_neg hct]
      rw [ih _ hc.1 hrest]
      simp [List.countP_cons, hct]

lemma redisSeen_live_preserved (st : DedupeState) (now : Nat) (i themKey : String)
    (ttl e : Nat) (hKey : themKey ≠ "") (hlive : st themKey = some e) (hnow : now < e) :
    (redisSeen st now i ttl).2 themKey = some e ∧
    (pyStrip i = themKey → (redisSeen st now i ttl).1 = true) := by
  unfold redisSeen
  by_cases hi : pyStrip i = ""
  · rw [if_pos hi]
    exact ⟨hlive, fun h => absurd (h.symm.trans hi) hKey⟩
  · rw [if_neg hi]
    by_cases hit : pyStrip i = themKey
    · rw [hit, hlive]
      dsimp only
      rw [if_pos hnow]
      exact ⟨hlive, fun _ => rfl⟩
    · cases hmi : st (pyStrip i) with
      | some e2 =>
        dsimp only
        by_cases h2 : now < e2
        · rw [if_pos h2]
          exact ⟨hlive, fun h => absurd h hit⟩
        · rw [if_neg h2]
          refine ⟨?_, fun h => absurd h hit⟩
          show (if themKey = pyStrip i then some (now + ttl) else st themKey) = some e
          rw [if_neg (fun h => hit h.symm), hlive]
      | none =>
        dsimp only
        refine ⟨?_, fun h => absurd h hit⟩
        show (if themKey = pyStrip i then some (now + ttl) else st themKey) = some e
        rw [if_neg (fun h => hit h.symm), hlive]

lemma redisSeen_seq_true (msgId : String) (ttl : Nat) (hId : pyStrip msgId ≠ "") (e : Nat) :
    ∀ (cs : List (Nat × String)) (st : DedupeState),
      st (pyStrip msgId) = some e → (∀ c ∈ cs, c.1 < e) →
      seenResultsFor (fun st2 now i => redisSeen st2 now i ttl) msgId st cs =
        List.replicate (cs.countP fun c => decide (c.2 = msgId)) true := by
  intro cs
  induction cs with
  | nil => intro st _ _; rfl
  | cons c rest ih =>
    intro st hlive htimes
    have hc := redisSeen_live_preserved st c.1 c.2 (pyStrip msgId) ttl e hId hlive
      (htimes c (List.mem_cons_self c rest))
    have hrest : ∀ c2 ∈ rest, c2.1 < e :=
      fun c2 h2 => htimes c2 (List.mem_cons_of_mem c h2)
    by_cases hct : c.2 = msgId
    · simp only [seenResultsFor, if_pos hct]
      rw [hc.2 (by rw [hct]), ih _ hc.1 hrest]
      simp [List.countP_cons, hct, List.replicate_succ]
    · simp only [seenResultsFor, if_neg hct]
      rw [ih _ hc.1 hrest]
      simp [List.countP_cons, hct]

/-- C1 (amended): de-dupe idempotence for an ID that is non-blank (for
the Redis ledger the ID must be non-empty after stripping — see the
counterexample for why blank-but-non-empty IDs fail).  For a sequence of
calls all within the TTL window, against a ledger with no live entry for
the ID at the first call, the call with the ID returns false exactly once
— the first time, recording the ID with its TTL — and every later call
with that ID returns true, regardless of which caller makes each call and
of interleaved calls for other IDs.  This holds for the in-memory
`_meta_seen` ledger and for `RedisDedupe.seen`. -/
theorem dedupe_seen_false_exactly_once (msgId : String) (t0 ttl : Nat)
    (stM stR : DedupeState) (rest : List (Nat × String))
    (hId : pyStrip msgId ≠ "")
    (hM : ∀ e, stM msgId = some e → e ≤ t0)
    (hR : ∀ e, stR (pyStrip msgId) = some e → e ≤ t0)
    (htM : ∀ c ∈ rest, c.1 < t0 + metaSeenTtlSeconds)
    (htR : ∀ c ∈ rest, c.1 < t0 + ttl) :
    seenResultsFor metaSeen msgId stM ((t0, msgId) :: rest) =
      false :: List.replicate (rest.countP fun c => decide (c.2 = msgId)) true ∧
    seenResultsFor (fun st2 now i => redisSeen st2 now i ttl) msgId stR ((t0, msgId) :: rest) =
      false :: List.replicate (rest.countP fun c => decide (c.2 = msgId)) true := by
  have hne : msgId ≠ "" := fun h => hId (by rw [h]; rfl)
  constructor
  · have hswM : metaSweep stM t0 msgId = none := by
      unfold metaSweep
      cases hm : stM msgId with
      | none => rfl
      | some e => exact if_pos (hM e hm)
    have hstep : metaSeen stM t0 msgId =
        (false, fun k => if k = msgId then some (t0 + metaSeenTtlSeconds)
                         else metaSweep stM t0 k) := by
      unfold metaSeen
      rw [if_neg hne, hswM]
    simp only [seenResultsFor, if_pos rfl]
    rw [hstep]
    exact congrArg (false :: ·)
      (metaSeen_seq_true msgId hne (t0 + metaSeenTtlSeconds) rest _ (by simp) htM)
  · have hstep : redisSeen stR t0 msgId ttl =
        (false, fun k => if k = pyStrip msgId then some (t0 + ttl) else stR k) := by
      unfold redisSeen
      rw [if_neg hId]
      cases hm : stR (pyStrip msgId) with
      | none => rfl
      | some e =>
        dsimp only
        rw [if_neg (show ¬ t0 < e by have := hR e hm; omega)]
    simp only [seenResultsFor, if_pos rfl]
    rw [hstep]
    exact congrArg (false :: ·)
      (redisSeen_seq_true msgId ttl hId (t0 + ttl) rest _ (by simp) htR)

/-- The empty de-dupe ledger. -/
def emptyDedupe : DedupeState := fun _ => none

/-- C1 counterexample: `" "` is a non-empty message ID, yet
`RedisDedupe.seen` strips it to nothing and returns false on *every* call
— the second call within the TTL window also returns false, where the
claim requires true. -/
theorem redis_dedupe_whitespace_id_counterexample :
    " " ≠ "" ∧
    (redisSeen emptyDedupe 0 " " 86400).1 = false ∧
    (redisSeen (redisSeen emptyDedupe 0 " " 86400).2 1 " " 86400).1 = false := by
  exact ⟨by decide, rfl, rfl⟩

/-- Closed witness for C1 at concrete inputs: four calls, three of them
for the ID `"m1"`, one interleaved for another ID. -/
theorem dedupe_seen_false_exactly_once_witness :
    seenResultsFor metaSeen "m1" emptyDedupe [(0, "m1"), (5, "m1"), (9, "x"), (12, "m1")] =
      false :: List.replicate
        (List.countP (fun c => decide (c.2 = "m1")) [(5, "m1"), (9, "x"), (12, "m1")]) true ∧
    seenResultsFor (fun st2 now i => redisSeen st2 now i 60) "m1" emptyDedupe
        [(0, "m1"), (5, "m1"), (9, "x"), (12, "m1")] =
      false :: List.replicate
        (List.countP (fun c => decide (c.2 = "m1")) [(5, "m1"), (9, "x"), (12, "m1")]) true :=
  dedupe_seen_false_exactly_once "m1" 0 60 emptyDedupe emptyDedupe
    [(5, "m1"), (9, "x"), (12, "m1")]
    (by decide)
    (by intro e h; simp [emptyDedupe] at h)
    (by intro e h; simp [emptyDedupe] at h)
    (by decide)
    (by decide)

lemma string_data_append (a b : String) : (a ++ b).data = a.data ++ b.data := by
  cases a; cases b; rfl

lemma strStartsWith_eq (s p : String) (h : strStartsWith s p = true) :
    s = p ++ strDropChars s p.data.length := by
  unfold strStartsWith at h
  have hd : s.data.take p.data.length = p.data := by
    exact eq_of_beq h
  cases s with
  | mk l =>
    cases p with
    | mk q =>
      show String.mk l = String.mk q ++ String.mk (l.drop q.length)
      have : String.mk q ++ String.mk (l.drop q.length) = String.mk (q ++ l.drop q.length) := rfl
      rw [this]
      have hl : l = q ++ l.drop q.length := by
        conv_lhs => rw [← List.take_append_drop q.length l]
        rw [hd]
      rw [← hl]

lemma strStartsWith_append (p e : String) : strStartsWith (p ++ e) p = true := by
  unfold strStartsWith
  rw [string_data_append, List.take_left]
  exact beq_self_eq_true p.data

lemma strDropChars_append (p e : String) : strDropChars (p ++ e) p.data.length = e := by
  unfold strDropChars
  rw [string_data_append, List.drop_left]

/-- C8: the webhook signature gate.  With verification enabled, any
request whose `X-Hub-Signature-256` header differs from `sha256=` followed
by the hex HMAC of the raw body keyed by the configured (non-empty) app
secret is answered 403 with nothing processed: no extraction, no de-dupe
recording, no dispatch, no store effect.  A header that equals that value
passes the check and the request proceeds to extraction and dispatch.  The
HMAC-SHA256 hex digest itself is treated as an oracle; the gate's logic is
what the source implements around it. -/
theorem webhook_signature_gate (hmacHex : String → String → String) (cfg : WebhookCfg)
    (header rawBody : String) (payload : Option (List (String × String × String)))
    (now : Nat) (ded : DedupeState) (permits : Nat)
    (hEnabled : cfg.verifyMetaSignatures = true) :
    (header ≠ "sha256=" ++ hmacHex cfg.metaAppSecret rawBody →
      metaWebhook hmacHex cfg header rawBody payload now ded permits =
        { status := 403, dispatch := { ded := ded, permits := permits, submitted := [] } }) ∧
    (header = "sha256=" ++ hmacHex cfg.metaAppSecret rawBody → cfg.metaAppSecret ≠ "" →
      verifyMetaSignature hmacHex cfg header rawBody = true ∧
      ∀ msgs, payload = some msgs →
        metaWebhook hmacHex cfg header rawBody payload now ded permits =
          { status := 200, dispatch := metaWebhookLoop now ded permits msgs }) := by
  constructor
  · intro hmis
    by_cases hsec : cfg.metaAppSecret = ""
    · unfold metaWebhook verifyMetaSignature
      rw [hEnabled]
      simp [hsec]
    · by_cases hpre : strStartsWith header "sha256=" = true
      · have heq : header = "sha256=" ++ strDropChars header 7 :=
          strStartsWith_eq header "sha256=" hpre
        have hne : ¬(strDropChars header 7 = hmacHex cfg.metaAppSecret rawBody) := by
          intro h
          exact hmis (by rw [heq, h])
        unfold metaWebhook verifyMetaSignature
        rw [hEnabled]
        simp [hsec, hpre, hne]
      · unfold metaWebhook verifyMetaSignature
        rw [hEnabled]
        simp only [Bool.not_true, Bool.false_eq_true, if_false, if_neg hsec]
        rw [if_pos (by simp [Bool.not_eq_true] at hpre; simp [hpre])]
  · intro heq hsec
    have h1 : strStartsWith header "sha256=" = true := by
      rw [heq]; exact strStartsWith_append _ _
    have h2 : strDropChars header 7 = hmacHex cfg.metaAppSecret rawBody := by
      rw [heq]; exact strDropChars_append "sha256=" _
    have hv : verifyMetaSignature hmacHex cfg header rawBody = true := by
      unfold verifyMetaSignature
      rw [hEnabled]
      simp [hsec, h1, h2]
    refine ⟨hv, fun msgs hp => ?_⟩
    unfold metaWebhook
    rw [hv, hp]
    simp

/-- A concrete stand-in for the HMAC oracle, for witnesses. -/
def demoHmac (secret body : String) : String := secret ++ ":" ++ body

/-- Closed witness for C8 at a concrete mismatching header and a concrete
matching one. -/
theorem webhook_signature_gate_witness :
    metaWebhook demoHmac { verifyMetaSignatures := true, metaAppSecret := "k" }
        "nope" "body" (some [("1", "hi", "m")]) 0 emptyDedupe 3 =
      { status := 403, dispatch := { ded := emptyDedupe, permits := 3, submitted := [] } } ∧
    verifyMetaSignature demoHmac { verifyMetaSignatures := true, metaAppSecret := "k" }
        ("sha256=" ++ demoHmac "k" "body") "body" = true :=
  ⟨(webhook_signature_gate demoHmac _ "nope" "body" (some [("1", "hi", "m")]) 0 emptyDedupe 3
      rfl).1 (by decide),
   ((webhook_signature_gate demoHmac _ ("sha256=" ++ demoHmac "k" "body") "body"
      (some [("1", "hi", "m")]) 0 emptyDedupe 3 rfl).2 rfl (by decide)).1⟩

/-- Is this call the guest-auth refresh lookup (`check_guest_registration`)? -/
def isRefreshCall : BackendCall → Bool
  | .checkGuestRegistration _ => true
  | _ => false

/-- Is this call the best-effort registration (`register_guest`)? -/
def isRegisterCall : BackendCall → Bool
  | .registerGuest _ _ => true
  | _ => false

/-- Is this one of the four retryable primary calls (event lookup,
brochure, location, condolence submission)? -/
def isPrimaryCall : BackendCall → Bool
  | .getEventByCode _ _ => true
  | .getBrochure _ _ => true
  | .getFuneralLocation _ _ => true
  | .submitCondolence _ _ _ _ => true
  | _ => false

/-- The operation kinds of the backend gateway. -/
inductive CallKind where
  | event
  | brochure
  | location
  | condolence
  | register
  | check
deriving DecidableEq

/-- Kind of a backend call. -/
def callKind : BackendCall → CallKind
  | .getEventByCode _ _ => .event
  | .getBrochure _ _ => .brochure
  | .getFuneralLocation _ _ => .location
  | .submitCondolence _ _ _ _ => .condolence
  | .registerGuest _ _ => .register
  | .checkGuestRegistration _ => .check

/-- The recorded call's result, per the backend oracle, was an `error`
whose text the handler classifies as an authorization failure. -/
def callAuthErrored (b : Backend) : BackendCall → Prop
  | .getEventByCode c t =>
    (b.getEventByCode c t).status = "error" ∧
    looksLikeAuthError (b.getEventByCode c t).error = true
  | .getBrochure e t =>
    (b.getBrochure e t).status = "error" ∧
    looksLikeAuthError (b.getBrochure e t).error = true
  | .getFuneralLocation e t =>
    (b.getFuneralLocation e t).status = "error" ∧
    looksLikeAuthError (b.getFuneralLocation e t).error = true
  | .submitCondolence e g m t =>
    (b.submitCondolence e g m t).status = "error" ∧
    looksLikeAuthError (b.submitCondolence e g m t).error = true
  | .checkGuestRegistration _ => False
  | .registerGuest _ _ => False

/-- The possible backend-call tails of one guarded call site: no call at
all never happens (the site always calls once); a single primary call; a
primary call whose auth failure led to a refresh lookup that did not pan
out; or a primary call, the refresh lookup, and exactly one retry of the
same kind — the first call's result having been an authorization error in
the latter two cases. -/
def RetryTrace (b : Backend) (tail : List BackendCall) : Prop :=
  tail = [] ∨
  (∃ a, tail = [a] ∧ isPrimaryCall a = true) ∨
  (∃ a p, tail = [a, BackendCall.checkGuestRegistration p] ∧ isPrimaryCall a = true ∧
    callAuthErrored b a) ∨
  (∃ a p a2, tail = [a, BackendCall.checkGuestRegistration p, a2] ∧
    isPrimaryCall a = true ∧ callAuthErrored b a ∧
    isPrimaryCall a2 = true ∧ callKind a2 = callKind a)

/-- An optional single best-effort registration call. -/
def RegPrefix (pre : List BackendCall) : Prop :=
  pre = [] ∨ ∃ n p, pre = [BackendCall.registerGuest n p]

/-- Every backend-call trace of one transition: either the lone
guest-profile prefetch (new sender / restart), or an optional registration
followed by at most one guarded call site's activity. -/
def TraceShape (b : Backend) (calls : List BackendCall) : Prop :=
  (∃ p, calls = [BackendCall.checkGuestRegistration p]) ∨
  (∃ pre tail, calls = pre ++ tail ∧ RegPrefix pre ∧ RetryTrace b tail)

lemma traceShape_nil (b : Backend) : TraceShape b [] :=
  Or.inr ⟨[], [], rfl, Or.inl rfl, Or.inl rfl⟩

lemma traceShape_retry (b : Backend) (tail : List BackendCall) (h : RetryTrace b tail) :
    TraceShape b tail :=
  Or.inr ⟨[], tail, rfl, Or.inl rfl, h⟩

lemma refresh_calls_shape (backend : Backend) (senderKey : String) (session : Session)
    (phoneNumber : String) :
    ((refreshGuestAuthIfPossible backend senderKey session phoneNumber).calls = [] ∧
      (refreshGuestAuthIfPossible backend senderKey session phoneNumber).refreshed = false) ∨
    (∃ p, (refreshGuestAuthIfPossible backend senderKey session phoneNumber).calls =
      [BackendCall.checkGuestRegistration p]) := by
  simp only [refreshGuestAuthIfPossible]
  split
  · exact Or.inl ⟨rfl, rfl⟩
  · split
    · split
      · exact Or.inr ⟨_, rfl⟩
      · exact Or.inr ⟨_, rfl⟩
    · exact Or.inr ⟨_, rfl⟩

lemma refresh_refreshed_calls (backend : Backend) (senderKey : String) (session : Session)
    (phoneNumber : String)
    (h : (refreshGuestAuthIfPossible backend senderKey session phoneNumber).refreshed = true) :
    ∃ p, (refreshGuestAuthIfPossible backend senderKey session phoneNumber).calls =
      [BackendCall.checkGuestRegistration p] := by
  rcases refresh_calls_shape backend senderKey session phoneNumber with ⟨_, hf⟩ | hp
  · rw [h] at hf; cases hf
  · exact hp

lemma withAuthRetry_calls_shape {R : Type} (status : R → String) (errOf : R → Option String)
    (call : Session → R) (tag : Session → BackendCall)
    (backend : Backend) (senderKey phoneNumber : String) (session : Session)
    (hPrim : ∀ s, isPrimaryCall (tag s) = true)
    (hKind : ∀ s1 s2, callKind (tag s1) = callKind (tag s2))
    (hCoh : ∀ s, ((status (call s) == "error") && looksLikeAuthError (errOf (call s))) = true →
      callAuthErrored backend (tag s)) :
    RetryTrace backend
      (withAuthRetry status errOf call tag backend senderKey phoneNumber session).calls := by
  unfold withAuthRetry
  by_cases hcond : ((status (call session) == "error") &&
      looksLikeAuthError (errOf (call session))) = true
  · rw [if_pos hcond]
    have hAE := hCoh session hcond
    by_cases href : (refreshGuestAuthIfPossible backend senderKey session phoneNumber).refreshed = true
    · rw [if_pos href]
      obtain ⟨p, hp⟩ := refresh_refreshed_calls backend senderKey session phoneNumber href
      rw [hp]
      exact Or.inr (Or.inr (Or.inr ⟨tag session, p, tag _, rfl, hPrim session, hAE,
        hPrim _, hKind _ _⟩))
    · rw [if_neg href]
      rcases refresh_calls_shape backend senderKey session phoneNumber with ⟨hc, _⟩ | ⟨p, hp⟩
      · rw [hc]
        exact Or.inr (Or.inl ⟨tag session, rfl, hPrim session⟩)
      · rw [hp]
        exact Or.inr (Or.inr (Or.inl ⟨tag session, p, rfl, hPrim session, hAE⟩))
  · rw [if_neg hcond]
    exact Or.inr (Or.inl ⟨tag session, rfl, hPrim session⟩)

lemma retryTrace_event (backend : Backend) (senderKey phoneNumber : String)
    (session : Session) (code : Session → String) :
    RetryTrace backend (withAuthRetry (fun x => x.status) (fun x => x.error)
      (fun s => backend.getEventByCode (code s) s.backendToken)
      (fun s => BackendCall.getEventByCode (code s) s.backendToken)
      backend senderKey phoneNumber session).calls := by
  apply withAuthRetry_calls_shape
  · intro s; rfl
  · intro s1 s2; rfl
  · intro s h
    rw [Bool.and_eq_true, beq_iff_eq] at h
    exact ⟨h.1, h.2⟩

lemma retryTrace_brochure (backend : Backend) (senderKey phoneNumber : String)
    (session : Session) :
    RetryTrace backend (withAuthRetry (fun x => x.status) (fun x => x.error)
      (fun s => backend.getBrochure (pyStr s.eventId) s.backendToken)
      (fun s => BackendCall.getBrochure (pyStr s.eventId) s.backendToken)
      backend senderKey phoneNumber session).calls := by
  apply withAuthRetry_calls_shape
  · intro s; rfl
  · intro s1 s2; rfl
  · intro s h
    rw [Bool.and_eq_true, beq_iff_eq] at h
    exact ⟨h.1, h.2⟩

lemma retryTrace_location (backend : Backend) (senderKey phoneNumber : String)
    (session : Session) :
    RetryTrace backend (withAuthRetry (fun x => x.status) (fun x => x.error)
      (fun s => backend.getFuneralLocation (pyStr s.eventId) s.backendToken)
      (fun s => BackendCall.getFuneralLocation (pyStr s.eventId) s.backendToken)
      backend senderKey phoneNumber session).calls := by
  apply withAuthRetry_calls_shape
  · intro s; rfl
  · intro s1 s2; rfl
  · intro s h
    rw [Bool.and_eq_true, beq_iff_eq] at h
    exact ⟨h.1, h.2⟩

lemma retryTrace_condolence (backend : Backend) (senderKey phoneNumber text : String)
    (session : Session) :
    RetryTrace backend (withAuthRetry (fun x => x.status) (fun x => x.error)
      (fun s => backend.submitCondolence (pyStr s.eventId) (pyStr s.guestId) text s.backendToken)
      (fun s => BackendCall.submitCondolence (pyStr s.eventId) (pyStr s.guestId) text s.backendToken)
      backend senderKey phoneNumber session).calls := by
  apply withAuthRetry_calls_shape
  · intro s; rfl
  · intro s1 s2; rfl
  · intro s h
    rw [Bool.and_eq_true, beq_iff_eq] at h
    exact ⟨h.1, h.2⟩

lemma waitNameRegister_regPrefix (backend : Backend) (text phone : String)
    (session : Session) :
    RegPrefix (waitNameRegister backend text phone session).2 := by
  simp only [waitNameRegister]
  split
  · exact Or.inl rfl
  · split
    · split
      · exact Or.inr ⟨_, _, rfl⟩
      · exact Or.inr ⟨_, _, rfl⟩
    · exact Or.inr ⟨_, _, rfl⟩

/-- A transition either produced an ordinary outgoing message, or it hit
the donate-branch `TypeError` — in which case it made no backend call and
persisted nothing. -/
def OkOrDonateBug (r : HandlerResult) : Prop :=
  (∃ m, r.outcome = HandlerOutcome.ok m) ∨
  (r.outcome = HandlerOutcome.exn "TypeError" ∧ r.calls = [] ∧ r.effects = [])

lemma waitEventCodeVerify_shape (backend : Backend) (settings : Settings)
    (senderKey phoneNumber text : String) (session : Session) :
    TraceShape backend
      (waitEventCodeVerify backend settings senderKey phoneNumber text session).calls ∧
    OkOrDonateBug (waitEventCodeVerify backend settings senderKey phoneNumber text session) := by
  simp only [waitEventCodeVerify]
  split_ifs <;>
    exact ⟨traceShape_retry backend _
      (retryTrace_event backend senderKey phoneNumber session (fun _ => text)),
      Or.inl ⟨_, rfl⟩⟩

lemma handleWaitEventCode_shape (backend : Backend) (settings : Settings)
    (senderKey phoneNumber text : String) (session : Session) :
    TraceShape backend
      (handleWaitEventCode backend settings senderKey phoneNumber text session).calls ∧
    OkOrDonateBug (handleWaitEventCode backend settings senderKey phoneNumber text session) := by
  simp only [handleWaitEventCode, waitEventCodeAdoptCached]
  split_ifs <;>
    first
      | exact ⟨traceShape_nil backend, Or.inl ⟨_, rfl⟩⟩
      | exact waitEventCodeVerify_shape backend settings senderKey phoneNumber text session

lemma handleWaitNameVerified_shape (backend : Backend) (settings : Settings)
    (senderKey phoneNumber text : String) (session2 : Session)
    (regCalls : List BackendCall) (hreg : RegPrefix regCalls) :
    TraceShape backend
      (handleWaitNameVerified backend settings senderKey phoneNumber text session2 regCalls).calls ∧
    OkOrDonateBug
      (handleWaitNameVerified backend settings senderKey phoneNumber text session2 regCalls) := by
  simp only [handleWaitNameVerified, waitNameClearFailure]
  split_ifs <;>
    first
      | exact ⟨Or.inr ⟨regCalls, [], (List.append_nil _).symm, hreg, Or.inl rfl⟩,
          Or.inl ⟨_, rfl⟩⟩
      | exact ⟨Or.inr ⟨regCalls, _, rfl, hreg,
          retryTrace_event backend senderKey phoneNumber session2 (fun s => pyOr s.eventCode "")⟩,
          Or.inl ⟨_, rfl⟩⟩

lemma handleWaitName_shape (backend : Backend) (settings : Settings)
    (senderKey phoneNumber text : String) (session : Session) :
    TraceShape backend
      (handleWaitName backend settings senderKey phoneNumber text session).calls ∧
    OkOrDonateBug (handleWaitName backend settings senderKey phoneNumber text session) := by
  simp only [handleWaitName]
  split_ifs
  · exact ⟨traceShape_nil backend, Or.inl ⟨_, rfl⟩⟩
  · exact handleWaitNameVerified_shape backend settings senderKey phoneNumber text _ _
      (waitNameRegister_regPrefix backend text _ _)

lemma menuBrochure_shape (backend : Backend) (senderKey phoneNumber : String)
    (session : Session) :
    TraceShape backend (menuBrochure backend senderKey phoneNumber session).calls ∧
    OkOrDonateBug (menuBrochure backend senderKey phoneNumber session) := by
  simp only [menuBrochure]
  split_ifs <;>
    first
      | exact ⟨traceShape_nil backend, Or.inl ⟨_, rfl⟩⟩
      | exact ⟨traceShape_retry backend _
          (retryTrace_brochure backend senderKey phoneNumber session), Or.inl ⟨_, rfl⟩⟩

lemma menuLocation_shape (backend : Backend) (senderKey phoneNumber : String)
    (session : Session) :
    TraceShape backend (menuLocation backend senderKey phoneNumber session).calls ∧
    OkOrDonateBug (menuLocation backend senderKey phoneNumber session) := by
  simp only [menuLocation]
  split_ifs <;>
    first
      | exact ⟨traceShape_nil backend, Or.inl ⟨_, rfl⟩⟩
      | exact ⟨traceShape_retry backend _
          (retryTrace_location backend senderKey phoneNumber session), Or.inl ⟨_, rfl⟩⟩

lemma menuDonate_shape (session : Session) (backend : Backend) :
    TraceShape backend (menuDonate session).calls ∧ OkOrDonateBug (menuDonate session) := by
  simp only [menuDonate]
  split_ifs
  · exact ⟨traceShape_nil backend, Or.inl ⟨_, rfl⟩⟩
  · exact ⟨traceShape_nil backend, Or.inr ⟨rfl, rfl, rfl⟩⟩

lemma condolenceSubmit_shape (backend : Backend) (senderKey phoneNumber text : String)
    (session : Session) :
    TraceShape backend (condolenceSubmit backend senderKey phoneNumber text session).calls ∧
    OkOrDonateBug (condolenceSubmit backend senderKey phoneNumber text session) := by
  simp only [condolenceSubmit]
  split_ifs <;>
    exact ⟨traceShape_retry backend _
      (retryTrace_condolence backend senderKey phoneNumber text session), Or.inl ⟨_, rfl⟩⟩

lemma handleMenu_shape (backend : Backend) (settings : Settings)
    (senderKey phoneNumber text choice : String) (session : Session) :
    TraceShape backend
      (handleMenu backend settings senderKey phoneNumber text choice session).calls ∧
    OkOrDonateBug (handleMenu backend settings senderKey phoneNumber text choice session) := by
  simp only [handleMenu]
  split_ifs <;>
    first
      | exact ⟨traceShape_nil backend, Or.inl ⟨_, rfl⟩⟩
      | exact menuBrochure_shape backend senderKey phoneNumber session
      | exact menuDonate_shape session backend
      | exact menuLocation_shape backend senderKey phoneNumber session

lemma handleWaitCondolence_shape (backend : Backend)
    (senderKey phoneNumber text choice : String) (session : Session) :
    TraceShape backend
      (handleWaitCondolence backend senderKey phoneNumber text choice session).calls ∧
    OkOrDonateBug (handleWaitCondolence backend senderKey phoneNumber text choice session) := by
  simp only [handleWaitCondolence]
  split_ifs <;>
    first
      | exact ⟨traceShape_nil backend, Or.inl ⟨_, rfl⟩⟩
      | exact condolenceSubmit_shape backend senderKey phoneNumber text session

lemma traceShape_prefetch (backend : Backend) (phone : String) :
    TraceShape backend (newSessionWithPrefetch backend phone).2 := by
  rw [newSessionWithPrefetch_calls]
  split
  · exact traceShape_nil backend
  · exact Or.inl ⟨_, rfl⟩

lemma handleIncomingMessage_shape (senderKey incomingText : String) (stored : Option Session)
    (backend : Backend) (settings : Settings) :
    TraceShape backend
      (handleIncomingMessage senderKey incomingText stored backend settings).calls ∧
    OkOrDonateBug (handleIncomingMessage senderKey incomingText stored backend settings) := by
  cases stored with
  | none =>
    exact ⟨traceShape_prefetch backend _, Or.inl ⟨_, rfl⟩⟩
  | some session =>
    simp only [handleIncomingMessage]
    split_ifs
    · exact ⟨traceShape_prefetch backend _, Or.inl ⟨_, rfl⟩⟩
    · exact ⟨traceShape_nil backend, Or.inl ⟨_, rfl⟩⟩
    · exact ⟨traceShape_nil backend, Or.inl ⟨_, rfl⟩⟩
    · exact handleWaitEventCode_shape backend settings senderKey _ _ session
    · exact handleWaitName_shape backend settings senderKey _ _ session
    · exact handleMenu_shape backend settings senderKey _ _ _ session
    · exact handleWaitCondolence_shape backend senderKey _ _ _ session
    · exact ⟨traceShape_nil backend, Or.inl ⟨_, rfl⟩⟩

lemma isPrimary_facts (a : BackendCall) (h : isPrimaryCall a = true) :
    isRefreshCall a = false ∧ isRegisterCall a = false := by
  cases a <;> simp_all [isPrimaryCall, isRefreshCall, isRegisterCall]

@[simp] lemma isRefreshCall_check (p : String) :
    isRefreshCall (BackendCall.checkGuestRegistration p) = true := rfl

@[simp] lemma isPrimaryCall_check (p : String) :
    isPrimaryCall (BackendCall.checkGuestRegistration p) = false := rfl

@[simp] lemma isRegisterCall_check (p : String) :
    isRegisterCall (BackendCall.checkGuestRegistration p) = false := rfl

@[simp] lemma isRefreshCall_register (n p : String) :
    isRefreshCall (BackendCall.registerGuest n p) = false := rfl

@[simp] lemma isPrimaryCall_register (n p : String) :
    isPrimaryCall (BackendCall.registerGuest n p) = false := rfl

@[simp] lemma isRegisterCall_register (n p : String) :
    isRegisterCall (BackendCall.registerGuest n p) = true := rfl

lemma traceShape_counts (b : Backend) (calls : List BackendCall) (h : TraceShape b calls) :
    calls.countP isRefreshCall ≤ 1 ∧
    calls.countP isPrimaryCall ≤ 2 ∧
    calls.countP isRegisterCall ≤ 1 := by
  rcases h with ⟨p, rfl⟩ | ⟨pre, tail, rfl, hpre, htail⟩
  · simp [List.countP_cons]
  · rcases hpre with rfl | ⟨n, p, rfl⟩
    · rcases htail with rfl | ⟨a, rfl, ha⟩ | ⟨a, p2, rfl, ha, hae⟩ |
        ⟨a, p2, a2, rfl, ha, hae, ha2, hk⟩
      · simp
      · simp [List.countP_cons, ha, (isPrimary_facts a ha).1, (isPrimary_facts a ha).2]
      · simp [List.countP_cons, ha, (isPrimary_facts a ha).1, (isPrimary_facts a ha).2]
      · simp [List.countP_cons, ha, (isPrimary_facts a ha).1, (isPrimary_facts a ha).2,
          ha2, (isPrimary_facts a2 ha2).1, (isPrimary_facts a2 ha2).2]
    · rcases htail with rfl | ⟨a, rfl, ha⟩ | ⟨a, p2, rfl, ha, hae⟩ |
        ⟨a, p2, a2, rfl, ha, hae, ha2, hk⟩
      · simp [List.countP_cons]
      · simp [List.countP_cons, ha, (isPrimary_facts a ha).1, (isPrimary_facts a ha).2]
      · simp [List.countP_cons, ha, (isPrimary_facts a ha).1, (isPrimary_facts a ha).2]
      · simp [List.countP_cons, ha, (isPrimary_facts a ha).1, (isPrimary_facts a ha).2,
          ha2, (isPrimary_facts a2 ha2).1, (isPrimary_facts a2 ha2).2]

lemma withAuthRetry_retry_calls {R : Type} (status : R → String) (errOf : R → Option String)
    (call : Session → R) (tag : Session → BackendCall)
    (backend : Backend) (senderKey phoneNumber : String) (session : Session)
    (hcond : ((status (call session) == "error") &&
      looksLikeAuthError (errOf (call session))) = true)
    (href : (refreshGuestAuthIfPossible backend senderKey session phoneNumber).refreshed = true) :
    ∃ p, (withAuthRetry status errOf call tag backend senderKey phoneNumber session).calls =
      [tag session, BackendCall.checkGuestRegistration p,
       tag (refreshGuestAuthIfPossible backend senderKey session phoneNumber).session] := by
  obtain ⟨p, hp⟩ := refresh_refreshed_calls backend senderKey session phoneNumber href
  refine ⟨p, ?_⟩
  unfold withAuthRetry
  rw [if_pos hcond, if_pos href, hp]
  rfl

lemma waitEventCodeVerify_calls (backend : Backend) (settings : Settings)
    (senderKey phoneNumber text : String) (session : Session) :
    (waitEventCodeVerify backend settings senderKey phoneNumber text session).calls =
      (withAuthRetry (fun x => x.status) (fun x => x.error)
        (fun s => backend.getEventByCode text s.backendToken)
        (fun s => BackendCall.getEventByCode text s.backendToken)
        backend senderKey phoneNumber session).calls := by
  simp only [waitEventCodeVerify]
  split_ifs <;> rfl

set_option maxHeartbeats 2000000 in
/-- C2 (amended): the auth-error retry discipline of
`handle_incoming_message`.  Every transition's backend-call trace fits
`TraceShape`: at most one guest-auth refresh lookup, at most one
registration, at most two primary calls, and a repeated (retried) primary
call occurs only immediately after its first occurrence returned an
authorization error and the one refresh lookup succeeded — never a second
refresh or retry.  Whenever any backend call was made, the transition
surfaces an ordinary outgoing message (never an exception).  The claim as
stated ("exactly one refresh ... followed by exactly one retry") holds in
the canonical case and is proved as the final clause: in
`AwaitingEventCode`, when the verification auth-errors, a phone is
available and the registry lookup succeeds, the trace is exactly the
first call, one refresh lookup and one retry; but when no phone is
derivable the code performs no refresh at all (see the counterexample),
so "exactly one" must be weakened to "at most one, exactly one when the
refresh is possible". -/
theorem auth_retry_discipline (senderKey incomingText : String) (stored : Option Session)
    (backend : Backend) (settings : Settings) :
    TraceShape backend
      (handleIncomingMessage senderKey incomingText stored backend settings).calls ∧
    (handleIncomingMessage senderKey incomingText stored backend settings).calls.countP
      isRefreshCall ≤ 1 ∧
    (handleIncomingMessage senderKey incomingText stored backend settings).calls.countP
      isPrimaryCall ≤ 2 ∧
    ((handleIncomingMessage senderKey incomingText stored backend settings).calls ≠ [] →
      ∃ m, (handleIncomingMessage senderKey incomingText stored backend settings).outcome =
        HandlerOutcome.ok m) ∧
    (∀ s, stored = some s → s.state = waitEventCode →
      normalizeChoice (normalizeText incomingText) ≠ "restart" →
      normalizeChoice (normalizeText incomingText) ≠ "help" →
      normalizeText incomingText ≠ "" →
      isGreeting (normalizeText incomingText) = false →
      optStrTruthy s.backendToken = true →
      guestHasEventCode s (normalizeText incomingText) = false →
      (((backend.getEventByCode (normalizeText incomingText) s.backendToken).status == "error") &&
        looksLikeAuthError
          (backend.getEventByCode (normalizeText incomingText) s.backendToken).error) = true →
      (refreshGuestAuthIfPossible backend senderKey s (normalizePhone senderKey)).refreshed = true →
      ∃ p, (handleIncomingMessage senderKey incomingText stored backend settings).calls =
        [BackendCall.getEventByCode (normalizeText incomingText) s.backendToken,
         BackendCall.checkGuestRegistration p,
         BackendCall.getEventByCode (normalizeText incomingText)
           (refreshGuestAuthIfPossible backend senderKey s
             (normalizePhone senderKey)).session.backendToken]) := by
  obtain ⟨hshape, hok⟩ := handleIncomingMessage_shape senderKey incomingText stored backend settings
  obtain ⟨hc1, hc2, _⟩ := traceShape_counts backend _ hshape
  refine ⟨hshape, hc1, hc2, ?_, ?_⟩
  · intro hne
    rcases hok with ⟨m, hm⟩ | ⟨_, hcalls, _⟩
    · exact ⟨m, hm⟩
    · exact absurd hcalls hne
  · intro s hst hstate hrs hhp htext hgreet htok hcode hcond href
    rw [hst]
    simp only [handleIncomingMessage]
    rw [if_neg hrs, if_neg hhp, if_pos hstate]
    simp only [handleWaitEventCode]
    rw [if_neg htext, if_neg (by rw [hgreet]; exact Bool.false_ne_true),
      if_neg (by rw [htok]; simp), if_neg (by rw [hcode]; exact Bool.false_ne_true)]
    rw [waitEventCodeVerify_calls]
    exact withAuthRetry_retry_calls _ _ _ _ backend senderKey (normalizePhone senderKey) s
      hcond href

/-- A waiting-for-code session with a token but no phone number. -/
def noPhoneSession : Session := { state := waitEventCode, backendToken := some "T" }

/-- A backend whose event verification always fails with an HTTP 401. -/
def authErrBackend : Backend :=
  { stubBackend with
    getEventByCode := fun _ _ => { status := "error", error := some "HTTP 401" } }

set_option maxHeartbeats 4000000 in
/-- C2 counterexample: a backend call result that is an authorization
error after which the handler performs *no* refresh and *no* retry — the
session has no phone number and the sender key has no digits, so
`_refresh_guest_auth_if_possible` returns without calling the backend.
The claim's "performs exactly one guest-auth refresh ... followed by
exactly one retry" is false on this transition: the trace is the single
failed call. -/
theorem auth_error_without_refresh_counterexample :
    ((authErrBackend.getEventByCode "CODE9" (some "T")).status = "error" ∧
      looksLikeAuthError (authErrBackend.getEventByCode "CODE9" (some "T")).error = true) ∧
    (handleIncomingMessage "abc" "CODE9" (some noPhoneSession) authErrBackend
      defaultSettings).calls = [BackendCall.getEventByCode "CODE9" (some "T")] ∧
    (handleIncomingMessage "abc" "CODE9" (some noPhoneSession) authErrBackend
      defaultSettings).calls.countP isRefreshCall = 0 := by
  decide

/-- A waiting-for-code session for the retry witness. -/
def retryDemoSession : Session :=
  { state := waitEventCode, phoneNumber := some "233200000001", backendToken := some "T" }

/-- A backend whose event verification auth-errors under the stale token
and whose guest lookup succeeds with a fresh token. -/
def retryDemoBackend : Backend :=
  { stubBackend with
    getEventByCode := fun _ t =>
      if t = some "T" then { status := "error", error := some "HTTP 401" }
      else { status := "not_found" }
    checkGuestRegistration := fun _ =>
      { status := "found"
        guest := some { guestId := "G2", fullName := "Ama", phoneNumber := "233200000001",
                        funeralUniqueCodes := [] }
        token := some "T2" } }

set_option maxHeartbeats 4000000 in
/-- Closed witness for C2: the canonical one-refresh-one-retry trace at
concrete inputs. -/
theorem auth_retry_discipline_witness :
    ∃ p, (handleIncomingMessage "233200000001" "CODE9" (some retryDemoSession)
        retryDemoBackend defaultSettings).calls =
      [BackendCall.getEventByCode (normalizeText "CODE9") retryDemoSession.backendToken,
       BackendCall.checkGuestRegistration p,
       BackendCall.getEventByCode (normalizeText "CODE9")
         (refreshGuestAuthIfPossible retryDemoBackend "233200000001" retryDemoSession
           (normalizePhone "233200000001")).session.backendToken] :=
  (auth_retry_discipline "233200000001" "CODE9" (some retryDemoSession) retryDemoBackend
      defaultSettings).2.2.2.2 retryDemoSession rfl (by decide) (by decide) (by decide)
    (by decide) (by decide) (by decide) (by decide) (by decide) (by decide)

/-- Number of `get_event_by_code` calls in a trace. -/
def countEventCalls (calls : List BackendCall) : Nat :=
  calls.countP (fun c => callKind c == CallKind.event)

lemma prefetch_no_event_calls (backend : Backend) (phone : String) :
    countEventCalls (newSessionWithPrefetch backend phone).2 = 0 := by
  unfold countEventCalls
  rw [newSessionWithPrefetch_calls]
  split <;> simp [callKind]

lemma regPrefix_no_event_calls (calls : List BackendCall) (h : RegPrefix calls) :
    countEventCalls calls = 0 := by
  rcases h with rfl | ⟨n, p, rfl⟩ <;> simp [countEventCalls, callKind]

set_option maxHeartbeats 2000000 in
/-- C3 (amended): the verification-cache skip, stated at the moment the
cache is consulted.  (A) In `AwaitingEventCode`, if the normalized input
code is already in the stored session's `funeralUniqueCodes`, the
transition never calls `get_event_by_code`.  (B) Under the conditions
that actually reach the cache check (a backend token, a non-empty
non-greeting input, no global command), the cached event identity is
adopted: the persisted session carries the normalized code as its
`eventId` and the default display name as its `eventName`.  (C) In
`AwaitingName` the cache is consulted *after* the registration step may
have replaced `funeralUniqueCodes` and the token: if the code is present
then (and a token is held), `get_event_by_code` is not called and the
cached identity is adopted.  The claim as stated — presence in the
*stored* session's list prevents the verify call — is refuted by the
counterexample, where registration replaces the list mid-transition. -/
theorem verification_cache_skip (senderKey incomingText : String)
    (backend : Backend) (settings : Settings) :
    (∀ s : Session, s.state = waitEventCode →
      guestHasEventCode s (normalizeText incomingText) = true →
      countEventCalls
        (handleIncomingMessage senderKey incomingText (some s) backend settings).calls = 0) ∧
    (∀ s : Session, s.state = waitEventCode →
      guestHasEventCode s (normalizeText incomingText) = true →
      normalizeChoice (normalizeText incomingText) ≠ "restart" →
      normalizeChoice (normalizeText incomingText) ≠ "help" →
      normalizeText incomingText ≠ "" →
      isGreeting (normalizeText incomingText) = false →
      optStrTruthy s.backendToken = true →
      ∃ s2, (handleIncomingMessage senderKey incomingText (some s) backend settings).effects =
          [StoreEffect.upsert senderKey s2] ∧
        s2.eventId = some (normalizeEventCode (normalizeText incomingText)) ∧
        s2.eventName = some (eventDisplayName settings (normalizeEventCode (normalizeText incomingText)))) ∧
    (∀ s : Session, s.state = waitName →
      normalizeChoice (normalizeText incomingText) ≠ "restart" →
      normalizeChoice (normalizeText incomingText) ≠ "help" →
      normalizeText incomingText ≠ "" →
      optStrTruthy (waitNameRegister backend (normalizeText incomingText)
          (pyOr s.phoneNumber (normalizePhone senderKey))
          { s with guestName := some (normalizeText incomingText) }).1.eventCode = true →
      optStrTruthy (waitNameRegister backend (normalizeText incomingText)
          (pyOr s.phoneNumber (normalizePhone senderKey))
          { s with guestName := some (normalizeText incomingText) }).1.backendToken = true →
      guestHasEventCode (waitNameRegister backend (normalizeText incomingText)
          (pyOr s.phoneNumber (normalizePhone senderKey))
          { s with guestName := some (normalizeText incomingText) }).1
        (pyOr (waitNameRegister backend (normalizeText incomingText)
          (pyOr s.phoneNumber (normalizePhone senderKey))
          { s with guestName := some (normalizeText incomingText) }).1.eventCode "") = true →
      countEventCalls
        (handleIncomingMessage senderKey incomingText (some s) backend settings).calls = 0 ∧
      ∃ s2, (handleIncomingMessage senderKey incomingText (some s) backend settings).effects =
          [StoreEffect.upsert senderKey s2] ∧
        s2.eventId = some (normalizeEventCode (pyOr (waitNameRegister backend
          (normalizeText incomingText) (pyOr s.phoneNumber (normalizePhone senderKey))
          { s with guestName := some (normalizeText incomingText) }).1.eventCode "")) ∧
        s2.state = menuState) := by
  refine ⟨?_, ?_, ?_⟩
  · intro s hstate hcode
    simp only [handleIncomingMessage]
    by_cases hrs : normalizeChoice (normalizeText incomingText) = "restart"
    · rw [if_pos hrs]
      exact prefetch_no_event_calls backend _
    · rw [if_neg hrs]
      by_cases hhp : normalizeChoice (normalizeText incomingText) = "help"
      · rw [if_pos hhp]
        simp [countEventCalls]
      · rw [if_neg hhp, if_pos hstate]
        simp only [handleWaitEventCode, waitEventCodeAdoptCached]
        split_ifs with h1 h2 h3 h4 <;> simp [countEventCalls]
  · intro s hstate hcode hrs hhp htext hgreet htok
    simp only [handleIncomingMessage]
    rw [if_neg hrs, if_neg hhp, if_pos hstate]
    simp only [handleWaitEventCode, waitEventCodeAdoptCached]
    rw [if_neg htext, if_neg (by rw [hgreet]; exact Bool.false_ne_true),
      if_neg (by rw [htok]; simp), if_pos hcode]
    split_ifs with h5
    · exact ⟨_, rfl, rfl, rfl⟩
    · exact ⟨_, rfl, rfl, rfl⟩
  · intro s hstate hrs hhp htext hevc htok hhas
    simp only [handleIncomingMessage]
    rw [if_neg hrs, if_neg hhp,
      if_neg (show ¬s.state = waitEventCode by rw [hstate]; decide), if_pos hstate]
    simp only [handleWaitName]
    rw [if_neg htext]
    simp only [handleWaitNameVerified]
    rw [if_neg (by rw [hevc]; simp), if_pos (by rw [htok, hhas]; rfl)]
    refine ⟨?_, _, rfl, rfl, rfl⟩
    exact regPrefix_no_event_calls _ (waitNameRegister_regPrefix backend _ _ _)

/-- A stored `AwaitingName` session whose pending code is already among
its known codes. -/
def cachedCodeSession : Session :=
  { state := waitName
    phoneNumber := some "233200000002"
    eventCode := some "ABC"
    funeralUniqueCodes := some ["ABC"] }

/-- A backend whose registration replaces the known codes with an empty
list. -/
def registerOverwriteBackend : Backend :=
  { stubBackend with
    registerGuest := fun _ _ =>
      { status := "created"
        guest := some { guestId := "G1", fullName := "Ama", phoneNumber := "233200000002",
                        funeralUniqueCodes := [] }
        token := some "T1" } }

set_option maxHeartbeats 4000000 in
/-- C3 counterexample: the pending code `"ABC"` is present in the stored
session's `funeralUniqueCodes`, yet the `AwaitingName` transition calls
`get_event_by_code` for exactly that code — the registration step
replaced the list (and supplied a token) before the cache check. -/
theorem cached_code_verified_anyway_counterexample :
    guestHasEventCode cachedCodeSession (pyStr cachedCodeSession.eventCode) = true ∧
    (handleIncomingMessage "233200000002" "Ama" (some cachedCodeSession)
      registerOverwriteBackend defaultSettings).calls =
      [BackendCall.registerGuest "Ama" "233200000002",
       BackendCall.getEventByCode "ABC" (some "T1")] := by
  decide

/-- A stored `AwaitingEventCode` session holding a token and a cached
code, and an `AwaitingName` session for the third clause. -/
def cacheHitSession : Session :=
  { state := waitEventCode
    backendToken := some "T"
    guestName := some "Ama"
    funeralUniqueCodes := some ["ABC"] }

/-- An `AwaitingName` session whose registration keeps the cached code. -/
def cacheHitNameSession : Session :=
  { state := waitName
    phoneNumber := some "233200000003"
    eventCode := some "abc"
    funeralUniqueCodes := some ["ABC"] }

/-- A backend whose registration returns a guest that still lists the
cached code. -/
def registerKeepBackend : Backend :=
  { stubBackend with
    registerGuest := fun _ _ =>
      { status := "created"
        guest := some { guestId := "G1", fullName := "Ama", phoneNumber := "233200000003",
                        funeralUniqueCodes := ["ABC"] }
        token := some "T1" } }

set_option maxHeartbeats 4000000 in
/-- Closed witness for C3 at concrete inputs: a cache hit in
`AwaitingEventCode` makes no event call and adopts the cached identity,
and a cache hit after registration in `AwaitingName` does the same. -/
theorem verification_cache_skip_witness :
    (countEventCalls (handleIncomingMessage "15550001111" "abc" (some cacheHitSession)
        stubBackend defaultSettings).calls = 0 ∧
      ∃ s2, (handleIncomingMessage "15550001111" "abc" (some cacheHitSession)
          stubBackend defaultSettings).effects = [StoreEffect.upsert "15550001111" s2] ∧
        s2.eventId = some (normalizeEventCode (normalizeText "abc")) ∧
        s2.eventName = some (eventDisplayName defaultSettings (normalizeEventCode (normalizeText "abc")))) ∧
    (countEventCalls (handleIncomingMessage "233200000003" "Ama" (some cacheHitNameSession)
        registerKeepBackend defaultSettings).calls = 0) :=
  ⟨⟨(verification_cache_skip "15550001111" "abc" stubBackend defaultSettings).1
      cacheHitSession rfl (by decide),
    ((verification_cache_skip "15550001111" "abc" stubBackend defaultSettings).2.1
      cacheHitSession rfl (by decide) (by decide) (by decide) (by decide) (by decide)
      (by decide))⟩,
   ((verification_cache_skip "233200000003" "Ama" registerKeepBackend defaultSettings).2.2
      cacheHitNameSession rfl (by decide) (by decide) (by decide) (by decide) (by decide)
      (by decide)).1⟩

/-- The spec's session invariant (claim C4): a non-empty `eventId` comes
with a non-empty `eventName`, and a `Menu` session has a guest name. -/
def SessionInv (s : Session) : Prop :=
  (optStrTruthy s.eventId = true → optStrTruthy s.eventName = true) ∧
  (s.state = menuState → optStrTruthy s.guestName = true)

instance (s : Session) : Decidable (SessionInv s) := by
  unfold SessionInv; infer_instance

/-- The inductive strengthening of the invariant: a session awaiting a
condolence also has a guest name (without this, the missing-context exit
of the condolence branch can persist a nameless `Menu` session — see the
counterexample). -/
def SessionInvStrong (s : Session) : Prop :=
  SessionInv s ∧ (s.state = waitCondolence → optStrTruthy s.guestName = true)

instance (s : Session) : Decidable (SessionInvStrong s) := by
  unfold SessionInvStrong; infer_instance

/-- Well-formedness of the deployed backend gateway, as guaranteed by
`HttpBackendClient`: `_parse_guest_auth` only builds a guest when the
phone number is present and falls back to it for the full name
(`http_client.py` lines 164-173), so returned guests carry a non-empty
name; `get_event_by_code` only builds an event around a non-empty unique
code and a display name that is never empty (`http_client.py` lines
209-229, 239-277). -/
def WfBackend (b : Backend) : Prop :=
  (∀ p g, (b.checkGuestRegistration p).guest = some g → g.fullName ≠ "") ∧
  (∀ n p g, (b.registerGuest n p).guest = some g → g.fullName ≠ "") ∧
  (∀ c t e, (b.getEventByCode c t).event = some e → e.eventId ≠ "" ∧ e.name ≠ "")

lemma optStrTruthy_some_iff (v : String) : optStrTruthy (some v) = true ↔ v ≠ "" := by
  simp [optStrTruthy, strTruthy]

lemma string_append_ne_empty_right (a b : String) (hb : b ≠ "") : a ++ b ≠ "" := by
  intro hc
  apply hb
  have h2 : a.data ++ b.data = [] := by
    have h3 := congrArg String.data hc
    rwa [string_data_append] at h3
  have h3 : b.data = [] := (List.append_eq_nil.mp h2).2
  cases b with
  | mk l =>
    cases h3
    rfl

lemma eventDisplayName_ne (settings : Settings) (code : String)
    (h : settings.defaultEventName ≠ "") : eventDisplayName settings code ≠ "" := by
  simp only [eventDisplayName]
  split_ifs with h1
  · exact string_append_ne_empty_right _ ")" (by decide)
  · exact h

lemma guestHasEventCode_code_ne (session : Session) (t : String)
    (h : guestHasEventCode session t = true) : normalizeEventCode t ≠ "" := by
  unfold guestHasEventCode at h
  by_cases hc : normalizeEventCode t = ""
  · rw [if_pos hc] at h; cases h
  · exact hc

/-- All sessions persisted by a list of store effects satisfy the
strengthened invariant. -/
def UpsertsInv (effs : List StoreEffect) : Prop :=
  ∀ k s, StoreEffect.upsert k s ∈ effs → SessionInvStrong s

lemma upsertsInv_nil : UpsertsInv [] := by
  intro k s h
  cases h

lemma upsertsInv_append {a b : List StoreEffect} (ha : UpsertsInv a) (hb : UpsertsInv b) :
    UpsertsInv (a ++ b) := by
  intro k s h
  rcases List.mem_append.mp h with h1 | h1
  · exact ha k s h1
  · exact hb k s h1

lemma upsertsInv_cons_upsert {k0 : String} {s0 : Session} {rest : List StoreEffect}
    (h0 : SessionInvStrong s0) (hr : UpsertsInv rest) :
    UpsertsInv (StoreEffect.upsert k0 s0 :: rest) := by
  intro k s h
  rcases List.mem_cons.mp h with h1 | h1
  · obtain ⟨-, rfl⟩ := (StoreEffect.upsert.injEq ..).mp h1
    exact h0
  · exact hr k s h1

lemma upsertsInv_cons_clear {k0 : String} {rest : List StoreEffect}
    (hr : UpsertsInv rest) : UpsertsInv (StoreEffect.clear k0 :: rest) := by
  intro k s h
  rcases List.mem_cons.mp h with h1 | h1
  · cases h1
  · exact hr k s h1

lemma upsertsInv_singleton {k0 : String} {s0 : Session} (h0 : SessionInvStrong s0) :
    UpsertsInv [StoreEffect.upsert k0 s0] :=
  upsertsInv_cons_upsert h0 upsertsInv_nil

/-- The guest-auth refresh preserves the strengthened invariant, leaves the
state and event identity untouched, keeps the guest name truthy, and only
persists invariant-satisfying sessions (the refreshed profile carries a
non-empty full name by backend well-formedness). -/
lemma refresh_inv (backend : Backend) (senderKey : String) (session : Session)
    (phoneNumber : String) (hwB : WfBackend backend) (hs : SessionInvStrong session) :
    SessionInvStrong (refreshGuestAuthIfPossible backend senderKey session phoneNumber).session ∧
    (refreshGuestAuthIfPossible backend senderKey session phoneNumber).session.state = session.state ∧
    (refreshGuestAuthIfPossible backend senderKey session phoneNumber).session.eventId = session.eventId ∧
    (refreshGuestAuthIfPossible backend senderKey session phoneNumber).session.eventName = session.eventName ∧
    (optStrTruthy session.guestName = true →
      optStrTruthy (refreshGuestAuthIfPossible backend senderKey session phoneNumber).session.guestName = true) ∧
    UpsertsInv (refreshGuestAuthIfPossible backend senderKey session phoneNumber).effects := by
  simp only [refreshGuestAuthIfPossible]
  split_ifs with h1 h2
  · exact ⟨hs, rfl, rfl, rfl, fun h => h, upsertsInv_nil⟩
  · cases hg : (backend.checkGuestRegistration (pyOr session.phoneNumber phoneNumber)).guest with
    | none => exact ⟨hs, rfl, rfl, rfl, fun h => h, upsertsInv_nil⟩
    | some g =>
      dsimp only
      have hname : g.fullName ≠ "" := hwB.1 _ _ hg
      have htru : optStrTruthy (some g.fullName) = true := (optStrTruthy_some_iff _).mpr hname
      have hinv : SessionInvStrong { session with
          guestId := some g.guestId
          guestName := some g.fullName
          backendToken := (backend.checkGuestRegistration (pyOr session.phoneNumber phoneNumber)).token
          funeralUniqueCodes := some g.funeralUniqueCodes } :=
        ⟨⟨hs.1.1, fun _ => htru⟩, fun _ => htru⟩
      exact ⟨hinv, rfl, rfl, rfl, fun _ => htru, upsertsInv_singleton hinv⟩
  · cases hg : (backend.checkGuestRegistration (pyOr session.phoneNumber phoneNumber)).guest with
    | none => exact ⟨hs, rfl, rfl, rfl, fun h => h, upsertsInv_nil⟩
    | some g =>
      dsimp only
      exact ⟨hs, rfl, rfl, rfl, fun h => h, upsertsInv_nil⟩

/-- The retry wrapper preserves the strengthened invariant, the state and
event identity of the session it returns, keeps the guest name truthy,
and only persists invariant-satisfying sessions. -/
lemma withAuthRetry_inv {R : Type} (status : R → String) (errOf : R → Option String)
    (call : Session → R) (tag : Session → BackendCall)
    (backend : Backend) (senderKey phoneNumber : String) (session : Session)
    (hwB : WfBackend backend) (hs : SessionInvStrong session) :
    SessionInvStrong (withAuthRetry status errOf call tag backend senderKey phoneNumber session).session ∧
    (withAuthRetry status errOf call tag backend senderKey phoneNumber session).session.state = session.state ∧
    (withAuthRetry status errOf call tag backend senderKey phoneNumber session).session.eventId = session.eventId ∧
    (withAuthRetry status errOf call tag backend senderKey phoneNumber session).session.eventName = session.eventName ∧
    (optStrTruthy session.guestName = true →
      optStrTruthy (withAuthRetry status errOf call tag backend senderKey phoneNumber session).session.guestName = true) ∧
    UpsertsInv (withAuthRetry status errOf call tag backend senderKey phoneNumber session).effects := by
  simp only [withAuthRetry]
  split_ifs with h1 h2
  · rcases refresh_inv backend senderKey session phoneNumber hwB hs with
      ⟨ha, hb, hc, hd, he, hf⟩
    exact ⟨ha, hb, hc, hd, he, hf⟩
  · rcases refresh_inv backend senderKey session phoneNumber hwB hs with
      ⟨ha, hb, hc, hd, he, hf⟩
    exact ⟨ha, hb, hc, hd, he, hf⟩
  · exact ⟨hs, rfl, rfl, rfl, fun h => h, upsertsInv_nil⟩

/-- The result delivered by the retry wrapper always comes from `call`
applied to some session whose state and event identity agree with the
input session. -/
lemma withAuthRetry_result {R : Type} (status : R → String) (errOf : R → Option String)
    (call : Session → R) (tag : Session → BackendCall)
    (backend : Backend) (senderKey phoneNumber : String) (session : Session) :
    ∃ s1, (withAuthRetry status errOf call tag backend senderKey phoneNumber session).result = call s1 := by
  simp only [withAuthRetry]
  split_ifs with h1 h2
  · exact ⟨_, rfl⟩
  · exact ⟨_, rfl⟩
  · exact ⟨_, rfl⟩

lemma sessionInvStrong_def (s : Session)
    (h1 : optStrTruthy s.eventId = true → optStrTruthy s.eventName = true)
    (h2 : s.state = menuState → optStrTruthy s.guestName = true)
    (h3 : s.state = waitCondolence → optStrTruthy s.guestName = true) :
    SessionInvStrong s :=
  ⟨⟨h1, h2⟩, h3⟩

lemma menu_ne_cond : menuState ≠ waitCondolence := by decide

lemma waitName_ne_menu : waitName ≠ menuState := by decide

lemma waitName_ne_cond : waitName ≠ waitCondolence := by decide

lemma waitEventCode_ne_menu : waitEventCode ≠ menuState := by decide

lemma waitEventCode_ne_cond : waitEventCode ≠ waitCondolence := by decide

lemma adoptVerifiedEvent_fields (text : String) (session : Session) (ev : Event) :
    (adoptVerifiedEvent text session ev).eventName = some ev.name ∧
    (adoptVerifiedEvent text session ev).guestName = session.guestName := by
  simp only [adoptVerifiedEvent]
  split_ifs <;> exact ⟨rfl, rfl⟩

lemma adoptVerifiedEvent_inv_menu (text : String) (s : Session) (ev : Event)
    (hid : ev.name ≠ "")
    (hg : optStrTruthy (adoptVerifiedEvent text s ev).guestName = true) :
    SessionInvStrong { adoptVerifiedEvent text s ev with state := menuState } := by
  obtain ⟨f2, _⟩ := adoptVerifiedEvent_fields text s ev
  refine sessionInvStrong_def _ (fun _ => ?_) (fun _ => hg) (fun h => ?_)
  · show optStrTruthy (adoptVerifiedEvent text s ev).eventName = true
    rw [f2]
    exact (optStrTruthy_some_iff _).mpr hid
  · exact absurd (show menuState = waitCondolence from h) menu_ne_cond

lemma adoptVerifiedEvent_inv_waitName (text : String) (s : Session) (ev : Event)
    (hid : ev.name ≠ "") :
    SessionInvStrong { adoptVerifiedEvent text s ev with state := waitName } := by
  obtain ⟨f2, _⟩ := adoptVerifiedEvent_fields text s ev
  refine sessionInvStrong_def _ (fun _ => ?_) (fun h => ?_) (fun h => ?_)
  · show optStrTruthy (adoptVerifiedEvent text s ev).eventName = true
    rw [f2]
    exact (optStrTruthy_some_iff _).mpr hid
  · exact absurd (show waitName = menuState from h) waitName_ne_menu
  · exact absurd (show waitName = waitCondolence from h) waitName_ne_cond

lemma waitNameAdoptVerified_fields (ev : Event) (session : Session) :
    (waitNameAdoptVerified ev session).eventName = some ev.name ∧
    (waitNameAdoptVerified ev session).guestName = session.guestName := by
  simp only [waitNameAdoptVerified]
  split_ifs <;> exact ⟨rfl, rfl⟩

lemma waitNameAdoptVerified_inv_menu (ev : Event) (s : Session)
    (hid : ev.name ≠ "") (hg : optStrTruthy s.guestName = true) :
    SessionInvStrong { waitNameAdoptVerified ev s with state := menuState } := by
  obtain ⟨f2, f3⟩ := waitNameAdoptVerified_fields ev s
  refine sessionInvStrong_def _ (fun _ => ?_) (fun _ => ?_) (fun h => ?_)
  · show optStrTruthy (waitNameAdoptVerified ev s).eventName = true
    rw [f2]
    exact (optStrTruthy_some_iff _).mpr hid
  · show optStrTruthy (waitNameAdoptVerified ev s).guestName = true
    rw [f3]
    exact hg
  · exact absurd (show menuState = waitCondolence from h) menu_ne_cond

/-- The cached-code adoption of the `wait_event_code` branch only persists
invariant-satisfying sessions, because the adopted display name derived
from the configured default is never empty. -/
lemma waitEventCodeAdoptCached_inv (settings : Settings) (senderKey text : String)
    (session : Session) (hset : settings.defaultEventName ≠ "") :
    UpsertsInv (waitEventCodeAdoptCached settings senderKey text session).effects := by
  have hdisp : optStrTruthy (some (eventDisplayName settings (normalizeEventCode text))) = true :=
    (optStrTruthy_some_iff _).mpr (eventDisplayName_ne settings (normalizeEventCode text) hset)
  simp only [waitEventCodeAdoptCached]
  split_ifs with hgn
  · refine upsertsInv_singleton
      (sessionInvStrong_def _ (fun _ => hdisp) (fun _ => hgn) (fun h => ?_))
    exact absurd (show menuState = waitCondolence from h) menu_ne_cond
  · refine upsertsInv_singleton
      (sessionInvStrong_def _ (fun _ => hdisp) (fun h => ?_) (fun h => ?_))
    · exact absurd (show waitName = menuState from h) waitName_ne_menu
    · exact absurd (show waitName = waitCondolence from h) waitName_ne_cond

/-- The verification tail of the `wait_event_code` branch only persists
invariant-satisfying sessions. -/
lemma waitEventCodeVerify_inv (backend : Backend) (settings : Settings)
    (senderKey phoneNumber text : String) (session : Session)
    (hwB : WfBackend backend) (hs : SessionInvStrong session) :
    UpsertsInv (waitEventCodeVerify backend settings senderKey phoneNumber text session).effects := by
  rcases withAuthRetry_inv (fun x => x.status) (fun x => x.error)
      (fun s => backend.getEventByCode text s.backendToken)
      (fun s => BackendCall.getEventByCode text s.backendToken)
      backend senderKey phoneNumber session hwB hs with ⟨ha, hb, hc, hd, he, hf⟩
  rcases withAuthRetry_result (fun x => x.status) (fun x => x.error)
      (fun s => backend.getEventByCode text s.backendToken)
      (fun s => BackendCall.getEventByCode text s.backendToken)
      backend senderKey phoneNumber session with ⟨s1, hres⟩
  simp only [waitEventCodeVerify]
  split_ifs with h1 h2
  · obtain ⟨ev, heq⟩ := Option.isSome_iff_exists.mp ((Bool.and_eq_true _ _).mp h1).2
    rw [heq] at h2 ⊢
    simp only [Option.getD_some] at h2 ⊢
    rw [hres] at heq
    have hne := hwB.2.2 text s1.backendToken _ heq
    exact upsertsInv_append hf
      (upsertsInv_singleton (adoptVerifiedEvent_inv_menu _ _ _ hne.2 h2))
  · obtain ⟨ev, heq⟩ := Option.isSome_iff_exists.mp ((Bool.and_eq_true _ _).mp h1).2
    rw [heq]
    simp only [Option.getD_some]
    rw [hres] at heq
    have hne := hwB.2.2 text s1.backendToken _ heq
    exact upsertsInv_append hf
      (upsertsInv_singleton (adoptVerifiedEvent_inv_waitName _ _ _ hne.2))
  · exact hf

/-- The `wait_event_code` branch only persists invariant-satisfying
sessions. -/
lemma handleWaitEventCode_inv (backend : Backend) (settings : Settings)
    (senderKey phoneNumber text : String) (session : Session)
    (hwB : WfBackend backend) (hset : settings.defaultEventName ≠ "")
    (hs : SessionInvStrong session) :
    UpsertsInv (handleWaitEventCode backend settings senderKey phoneNumber text session).effects := by
  simp only [handleWaitEventCode]
  split_ifs with h1 h2 h3 h4
  · exact upsertsInv_nil
  · exact upsertsInv_nil
  · refine upsertsInv_singleton
      (sessionInvStrong_def _ hs.1.1 (fun h => ?_) (fun h => ?_))
    · exact absurd (show waitName = menuState from h) waitName_ne_menu
    · exact absurd (show waitName = waitCondolence from h) waitName_ne_cond
  · exact waitEventCodeAdoptCached_inv settings senderKey text session hset
  · exact waitEventCodeVerify_inv backend settings senderKey phoneNumber text session hwB hs

/-- The event-clearing failure tail always persists an
invariant-satisfying session: it blanks the event identity and returns to
`wait_event_code`. -/
lemma waitNameClearFailure_inv (senderKey : String) (session : Session)
    (effects : List StoreEffect) (calls : List BackendCall) (he : UpsertsInv effects) :
    UpsertsInv (waitNameClearFailure senderKey session effects calls).effects := by
  simp only [waitNameClearFailure]
  refine upsertsInv_append he
    (upsertsInv_singleton (sessionInvStrong_def _ (fun h => ?_) (fun h => ?_) (fun h => ?_)))
  · exact absurd (show optStrTruthy none = true from h) (by decide)
  · exact absurd (show waitEventCode = menuState from h) waitEventCode_ne_menu
  · exact absurd (show waitEventCode = waitCondolence from h) waitEventCode_ne_cond

lemma waitNameRegister_fields (backend : Backend) (text phone : String) (session : Session) :
    (waitNameRegister backend text phone session).1.eventId = session.eventId ∧
    (waitNameRegister backend text phone session).1.eventName = session.eventName ∧
    (waitNameRegister backend text phone session).1.guestName = session.guestName := by
  simp only [waitNameRegister]
  split_ifs with h1 h2
  · exact ⟨rfl, rfl, rfl⟩
  · cases hg : (backend.registerGuest text phone).guest with
    | none => exact ⟨rfl, rfl, rfl⟩
    | some g => dsimp only; exact ⟨rfl, rfl, rfl⟩
  · cases hg : (backend.registerGuest text phone).guest with
    | none => exact ⟨rfl, rfl, rfl⟩
    | some g => dsimp only; exact ⟨rfl, rfl, rfl⟩

/-- The post-registration continuation of the `wait_name` branch only
persists invariant-satisfying sessions, provided the acting session has a
truthy guest name (it always does: the branch just stored the entered
name). -/
lemma handleWaitNameVerified_inv (backend : Backend) (settings : Settings)
    (senderKey phoneNumber text : String) (session2 : Session)
    (regCalls : List BackendCall)
    (hwB : WfBackend backend) (hset : settings.defaultEventName ≠ "")
    (hs2 : SessionInvStrong session2) (hg2 : optStrTruthy session2.guestName = true) :
    UpsertsInv (handleWaitNameVerified backend settings senderKey phoneNumber text
      session2 regCalls).effects := by
  rcases withAuthRetry_inv (fun x => x.status) (fun x => x.error)
      (fun s => backend.getEventByCode (pyOr s.eventCode "") s.backendToken)
      (fun s => BackendCall.getEventByCode (pyOr s.eventCode "") s.backendToken)
      backend senderKey phoneNumber session2 hwB hs2 with ⟨ha, hb, hc, hd, he, hf⟩
  rcases withAuthRetry_result (fun x => x.status) (fun x => x.error)
      (fun s => backend.getEventByCode (pyOr s.eventCode "") s.backendToken)
      (fun s => BackendCall.getEventByCode (pyOr s.eventCode "") s.backendToken)
      backend senderKey phoneNumber session2 with ⟨s1, hres⟩
  simp only [handleWaitNameVerified]
  split_ifs with h1 h2 h3 h4
  · refine upsertsInv_singleton (sessionInvStrong_def _ hs2.1.1 (fun h => ?_) (fun h => ?_))
    · exact absurd (show waitEventCode = menuState from h) waitEventCode_ne_menu
    · exact absurd (show waitEventCode = waitCondolence from h) waitEventCode_ne_cond
  · have hdisp : optStrTruthy (some (eventDisplayName settings
        (normalizeEventCode (pyOr session2.eventCode "")))) = true :=
      (optStrTruthy_some_iff _).mpr (eventDisplayName_ne settings _ hset)
    refine upsertsInv_singleton
      (sessionInvStrong_def _ (fun _ => hdisp) (fun _ => hg2) (fun h => ?_))
    exact absurd (show menuState = waitCondolence from h) menu_ne_cond
  · obtain ⟨ev, heq⟩ := Option.isSome_iff_exists.mp ((Bool.and_eq_true _ _).mp h4).2
    rw [heq]
    simp only [Option.getD_some]
    rw [hres] at heq
    have hne := hwB.2.2 (pyOr s1.eventCode "") s1.backendToken _ heq
    exact upsertsInv_append hf
      (upsertsInv_singleton (waitNameAdoptVerified_inv_menu _ _ hne.2 (he hg2)))
  · exact waitNameClearFailure_inv senderKey _ _ _ hf
  · exact waitNameClearFailure_inv senderKey session2 [] regCalls upsertsInv_nil

/-- The `wait_name` branch only persists invariant-satisfying sessions:
the entered (non-empty) name becomes the guest name before any session is
stored. -/
lemma handleWaitName_inv (backend : Backend) (settings : Settings)
    (senderKey phoneNumber text : String) (session : Session)
    (hwB : WfBackend backend) (hset : settings.defaultEventName ≠ "")
    (hs : SessionInvStrong session) :
    UpsertsInv (handleWaitName backend settings senderKey phoneNumber text session).effects := by
  simp only [handleWaitName]
  split_ifs with h1
  · exact upsertsInv_nil
  · obtain ⟨fid, fen, fgn⟩ := waitNameRegister_fields backend text
      (pyOr session.phoneNumber phoneNumber) { session with guestName := some text }
    have htext : optStrTruthy (some text) = true := (optStrTruthy_some_iff _).mpr h1
    have hg2 : optStrTruthy (waitNameRegister backend text
        (pyOr session.phoneNumber phoneNumber)
        { session with guestName := some text }).1.guestName = true := by
      rw [fgn]
      exact htext
    have hs2 : SessionInvStrong (waitNameRegister backend text
        (pyOr session.phoneNumber phoneNumber)
        { session with guestName := some text }).1 := by
      refine sessionInvStrong_def _ (fun h => ?_) (fun _ => hg2) (fun _ => hg2)
      rw [fid] at h
      rw [fen]
      exact hs.1.1 h
    exact handleWaitNameVerified_inv backend settings senderKey phoneNumber text _ _
      hwB hset hs2 hg2

/-- The brochure arm only persists invariant-satisfying sessions (the one
upsert stores the retry-returned session unchanged). -/
lemma menuBrochure_inv (backend : Backend) (senderKey phoneNumber : String)
    (session : Session) (hwB : WfBackend backend) (hs : SessionInvStrong session) :
    UpsertsInv (menuBrochure backend senderKey phoneNumber session).effects := by
  rcases withAuthRetry_inv (fun x => x.status) (fun x => x.error)
      (fun s => backend.getBrochure (pyStr s.eventId) s.backendToken)
      (fun s => BackendCall.getBrochure (pyStr s.eventId) s.backendToken)
      backend senderKey phoneNumber session hwB hs with ⟨ha, hb, hc, hd, he, hf⟩
  simp only [menuBrochure]
  split_ifs with h1 h2
  · exact upsertsInv_nil
  · exact upsertsInv_append hf (upsertsInv_singleton ha)
  · exact hf

/-- The donate arm persists nothing (the `TypeError` aborts the branch
before any store write). -/
lemma menuDonate_inv (session : Session) :
    UpsertsInv (menuDonate session).effects := by
  simp only [menuDonate]
  split_ifs <;> exact upsertsInv_nil

/-- The location arm only persists invariant-satisfying sessions (the
upsert only touches the location fields of the retry-returned session). -/
lemma menuLocation_inv (backend : Backend) (senderKey phoneNumber : String)
    (session : Session) (hwB : WfBackend backend) (hs : SessionInvStrong session) :
    UpsertsInv (menuLocation backend senderKey phoneNumber session).effects := by
  rcases withAuthRetry_inv (fun x => x.status) (fun x => x.error)
      (fun s => backend.getFuneralLocation (pyStr s.eventId) s.backendToken)
      (fun s => BackendCall.getFuneralLocation (pyStr s.eventId) s.backendToken)
      backend senderKey phoneNumber session hwB hs with ⟨ha, hb, hc, hd, he, hf⟩
  simp only [menuLocation]
  split_ifs <;>
    first
      | exact upsertsInv_nil
      | exact hf
      | exact upsertsInv_append hf
          (upsertsInv_singleton (sessionInvStrong_def _ ha.1.1 ha.1.2 ha.2))

/-- The `menu` branch only persists invariant-satisfying sessions. -/
lemma handleMenu_inv (backend : Backend) (settings : Settings)
    (senderKey phoneNumber text choice : String) (session : Session)
    (hwB : WfBackend backend) (hs : SessionInvStrong session) :
    UpsertsInv (handleMenu backend settings senderKey phoneNumber text choice session).effects := by
  simp only [handleMenu]
  split_ifs with h1 h2 h3 h4 h5 h6
  · refine upsertsInv_singleton (sessionInvStrong_def _ hs.1.1 (fun h => ?_) (fun h => ?_))
    · exact absurd (show waitName = menuState from h) waitName_ne_menu
    · exact absurd (show waitName = waitCondolence from h) waitName_ne_cond
  · exact upsertsInv_nil
  · exact menuBrochure_inv backend senderKey phoneNumber session hwB hs
  · exact menuDonate_inv session
  · have hg : optStrTruthy session.guestName = true := by
      simpa using h1
    refine upsertsInv_singleton (sessionInvStrong_def _ hs.1.1 (fun h => ?_) (fun _ => hg))
    exact absurd (show waitCondolence = menuState from h) (by decide)
  · exact menuLocation_inv backend senderKey phoneNumber session hwB hs
  · exact upsertsInv_nil

/-- The condolence-submission tail only persists invariant-satisfying
sessions, provided the acting session has a truthy guest name. -/
lemma condolenceSubmit_inv (backend : Backend) (senderKey phoneNumber text : String)
    (session : Session) (hwB : WfBackend backend) (hs : SessionInvStrong session)
    (hg : optStrTruthy session.guestName = true) :
    UpsertsInv (condolenceSubmit backend senderKey phoneNumber text session).effects := by
  rcases withAuthRetry_inv (fun x => x.status) (fun x => x.error)
      (fun s => backend.submitCondolence (pyStr s.eventId) (pyStr s.guestId) text s.backendToken)
      (fun s => BackendCall.submitCondolence (pyStr s.eventId) (pyStr s.guestId) text s.backendToken)
      backend senderKey phoneNumber session hwB hs with ⟨ha, hb, hc, hd, he, hf⟩
  simp only [condolenceSubmit]
  split_ifs with h1
  · refine upsertsInv_append hf
      (upsertsInv_singleton (sessionInvStrong_def _ ha.1.1 (fun _ => he hg) (fun h => ?_)))
    exact absurd (show menuState = waitCondolence from h) menu_ne_cond
  · refine upsertsInv_append hf
      (upsertsInv_singleton (sessionInvStrong_def _ ha.1.1 (fun _ => he hg) (fun h => ?_)))
    exact absurd (show menuState = waitCondolence from h) menu_ne_cond

/-- The `wait_condolence` branch only persists invariant-satisfying
sessions, given that the acting session itself satisfies the strengthened
invariant and is in the condolence state (so its guest name is truthy). -/
lemma handleWaitCondolence_inv (backend : Backend)
    (senderKey phoneNumber text choice : String) (session : Session)
    (hwB : WfBackend backend) (hs : SessionInvStrong session)
    (hstate : session.state = waitCondolence) :
    UpsertsInv (handleWaitCondolence backend senderKey phoneNumber text choice session).effects := by
  have hg : optStrTruthy session.guestName = true := hs.2 hstate
  simp only [handleWaitCondolence]
  split_ifs with h1 h2 h3 h4
  · refine upsertsInv_singleton (sessionInvStrong_def _ hs.1.1 (fun _ => hg) (fun h => ?_))
    exact absurd (show menuState = waitCondolence from h) menu_ne_cond
  · refine upsertsInv_singleton (sessionInvStrong_def _ hs.1.1 (fun _ => hg) (fun h => ?_))
    exact absurd (show menuState = waitCondolence from h) menu_ne_cond
  · refine upsertsInv_singleton (sessionInvStrong_def _ hs.1.1 (fun _ => hg) (fun h => ?_))
    exact absurd (show menuState = waitCondolence from h) menu_ne_cond
  · exact upsertsInv_nil
  · exact condolenceSubmit_inv backend senderKey phoneNumber text session hwB hs hg

/-- A freshly constructed session (with or without the guest prefetch)
satisfies the strengthened invariant: it starts in `wait_event_code` with
no event identity. -/
lemma newSessionWithPrefetch_invStrong (backend : Backend) (phoneNumber : String) :
    SessionInvStrong (newSessionWithPrefetch backend phoneNumber).1 := by
  simp only [newSessionWithPrefetch]
  split_ifs with h1 h2
  · refine sessionInvStrong_def _ (fun h => ?_) (fun h => ?_) (fun h => ?_)
    · exact absurd (show optStrTruthy none = true from h) (by decide)
    · exact absurd (show waitEventCode = menuState from h) waitEventCode_ne_menu
    · exact absurd (show waitEventCode = waitCondolence from h) waitEventCode_ne_cond
  · cases hg : (backend.checkGuestRegistration phoneNumber).guest with
    | none =>
      refine sessionInvStrong_def _ (fun h => ?_) (fun h => ?_) (fun h => ?_)
      · exact absurd (show optStrTruthy none = true from h) (by decide)
      · exact absurd (show waitEventCode = menuState from h) waitEventCode_ne_menu
      · exact absurd (show waitEventCode = waitCondolence from h) waitEventCode_ne_cond
    | some g =>
      dsimp only
      refine sessionInvStrong_def _ (fun h => ?_) (fun h => ?_) (fun h => ?_)
      · exact absurd (show optStrTruthy none = true from h) (by decide)
      · exact absurd (show waitEventCode = menuState from h) waitEventCode_ne_menu
      · exact absurd (show waitEventCode = waitCondolence from h) waitEventCode_ne_cond
  · cases hg : (backend.checkGuestRegistration phoneNumber).guest with
    | none =>
      refine sessionInvStrong_def _ (fun h => ?_) (fun h => ?_) (fun h => ?_)
      · exact absurd (show optStrTruthy none = true from h) (by decide)
      · exact absurd (show waitEventCode = menuState from h) waitEventCode_ne_menu
      · exact absurd (show waitEventCode = waitCondolence from h) waitEventCode_ne_cond
    | some g =>
      dsimp only
      refine sessionInvStrong_def _ (fun h => ?_) (fun h => ?_) (fun h => ?_)
      · exact absurd (show optStrTruthy none = true from h) (by decide)
      · exact absurd (show waitEventCode = menuState from h) waitEventCode_ne_menu
      · exact absurd (show waitEventCode = waitCondolence from h) waitEventCode_ne_cond

set_option maxHeartbeats 1000000 in
/-- C4: every session persisted by a `handle_incoming_message` transition
satisfies the session invariant (non-empty `eventId` implies non-empty
`eventName`; `Menu` state implies non-empty `guestName`) — provided the
backend is well-formed, the configured default event name is non-empty,
and the stored session satisfies the invariant STRENGTHENED with the
condolence clause (`wait_condolence` state implies non-empty
`guestName`).  The strengthening is necessary: see the counterexample. -/
theorem session_invariant_preserved (senderKey incomingText : String)
    (stored : Option Session) (backend : Backend) (settings : Settings)
    (hwB : WfBackend backend) (hset : settings.defaultEventName ≠ "")
    (hstored : ∀ s0, stored = some s0 → SessionInvStrong s0) :
    ∀ k s, StoreEffect.upsert k s ∈
        (handleIncomingMessage senderKey incomingText stored backend settings).effects →
      SessionInvStrong s ∧ SessionInv s := by
  have key : UpsertsInv
      (handleIncomingMessage senderKey incomingText stored backend settings).effects := by
    cases stored with
    | none =>
      exact upsertsInv_cons_upsert (newSessionWithPrefetch_invStrong backend _) upsertsInv_nil
    | some session =>
      have hsess := hstored session rfl
      simp only [handleIncomingMessage]
      split_ifs
      · exact upsertsInv_cons_clear
          (upsertsInv_cons_upsert (newSessionWithPrefetch_invStrong backend _) upsertsInv_nil)
      · exact upsertsInv_nil
      · exact upsertsInv_nil
      · exact handleWaitEventCode_inv backend settings senderKey _ _ session hwB hset hsess
      · exact handleWaitName_inv backend settings senderKey _ _ session hwB hset hsess
      · exact handleMenu_inv backend settings senderKey _ _ _ session hwB hsess
      · exact handleWaitCondolence_inv backend senderKey _ _ _ session hwB hsess
          (by assumption)
      · exact upsertsInv_cons_clear upsertsInv_nil
  exact fun k s h => ⟨key k s h, (key k s h).1⟩

/-- A stored session in `wait_condolence` with no guest profile and no
event identity.  It satisfies the spec\x27s invariant as literally stated. -/
def condolenceNoNameSession : Session :=
  { state := waitCondolence }

set_option maxHeartbeats 2000000 in
/-- C4 counterexample to the claim as stated: the stored
`wait_condolence` session with empty guest name satisfies the invariant,
yet the transition on input "x" persists a `menu` session whose guest
name is still empty — the missing-context exit of the condolence branch
(`handlers.py` lines 461-466) moves to `Menu` without restoring a guest
name, so the literal invariant is not inductive. -/
theorem menu_without_name_counterexample :
    SessionInv condolenceNoNameSession ∧
    (handleIncomingMessage "15550001111" "x" (some condolenceNoNameSession) stubBackend
        defaultSettings).effects =
      [StoreEffect.upsert "15550001111" { condolenceNoNameSession with state := menuState }] ∧
    ¬ SessionInv { condolenceNoNameSession with state := menuState } := by
  decide

set_option maxHeartbeats 2000000 in
/-- Witness for C4: at the concrete menu session and input "3", the
hypotheses of `session_invariant_preserved` hold and the persisted
`wait_condolence` session satisfies the strengthened invariant. -/
theorem session_invariant_preserved_witness :
    WfBackend stubBackend ∧ defaultSettings.defaultEventName ≠ "" ∧
    SessionInvStrong { menuDemoSession with state := waitCondolence } := by
  have hwB : WfBackend stubBackend :=
    ⟨fun p g h => Option.noConfusion h,
     fun n p g h => Option.noConfusion h,
     fun c t e h => Option.noConfusion h⟩
  refine ⟨hwB, by decide, ?_⟩
  exact (session_invariant_preserved "15550001111" "3" (some menuDemoSession)
    stubBackend defaultSettings hwB (by decide)
    (fun s0 h0 => by cases h0; decide)
    "15550001111" { menuDemoSession with state := waitCondolence } (by decide)).1
